import Mathlib

/-!
Shallow embedding of the idraak-backend core (C41f0N/idraak-backend):
the Express route handlers of `src/index.js` executed against the
Postgres schema of `src/schema.sql`, with the schema's row triggers
folded into each SQL statement they fire on.

Conventions:
* uuid columns become `Nat` drawn from a fresh-id counter `next_id`
  (`gen_random_uuid` produces fresh, never-reused values).
* `int4` columns become `Int`; nullable columns become `Option`.
* Each route handler is a function `DB → DB × Except ApiError α`:
  the returned `DB` is the state after the handler ran, including any
  rows written before a later statement failed (the handlers do not
  open transactions), and the `Except` is the HTTP response
  (`badRequest` = 400, `forbidden` = 403, `notFound` = 404,
  `internal` = 500, the catch-all for thrown SQL errors such as
  unique or foreign-key violations).
* Primary keys are unique in Postgres; single-row statements keyed on a
  primary key are modelled with `List.find?` / `List.eraseP`.
-/

namespace Idraak

/-- HTTP error responses produced by the route handlers of
`src/index.js`: 400, 403, 404, and 500 (thrown SQL errors). -/
inductive ApiError where
  | badRequest
  | forbidden
  | notFound
  | internal
deriving DecidableEq

/-- `roles` table (`schema.sql`): `role_id`, `title`,
`upvote_weight int4 DEFAULT 1 NOT NULL`. -/
structure Role where
  role_id : Nat
  title : String
  upvote_weight : Int
deriving DecidableEq

/-- `users` table: `user_id`, `role_id` (FK to `roles`, NOT NULL).
The identity columns (email, username, password hash) are outside the
spec's scope and omitted. -/
structure User where
  user_id : Nat
  role_id : Nat
deriving DecidableEq

/-- `issues` table: owner `user_id`, nullable `group_id`,
`upvote_count int4 DEFAULT 0 NOT NULL`,
`comment_count int4 DEFAULT 0 NULL` (always written as 0 on insert by
`POST /issues`). -/
structure Issue where
  issue_id : Nat
  user_id : Nat
  group_id : Option Nat
  upvote_count : Int
  comment_count : Int
deriving DecidableEq

/-- `groups` table: `owner_id`, `upvote_count`/`comment_count`
(`DEFAULT 0 NOT NULL`), `issue_count int4 DEFAULT 0 NULL`. -/
structure Group where
  group_id : Nat
  owner_id : Nat
  upvote_count : Int
  comment_count : Int
  issue_count : Int
deriving DecidableEq

/-- `issue_upvotes` table: UNIQUE (issue_id, user_id);
`upvote_weight int4 DEFAULT 1 NULL`, written by the BEFORE INSERT
trigger `trg_issue_upvote_after_insert`. -/
structure IssueUpvote where
  issue_id : Nat
  user_id : Nat
  upvote_weight : Option Int
deriving DecidableEq

/-- `group_upvotes` table: UNIQUE (group_id, user_id);
`upvote_weight int4 DEFAULT 1 NULL`, written by the BEFORE INSERT
trigger `trg_group_upvote_after_insert`. -/
structure GroupUpvote where
  group_id : Nat
  user_id : Nat
  upvote_weight : Option Int
deriving DecidableEq

/-- `comments` table (comments on issues). -/
structure Comment where
  comment_id : Nat
  issue_id : Nat
  user_id : Nat
  content : String
deriving DecidableEq

/-- `group_comments` table (comments on groups). -/
structure GroupComment where
  comment_id : Nat
  group_id : Nat
  user_id : Nat
  content : String
deriving DecidableEq

/-- Status strings stored in the `status` text columns of
`group_join_request` and `role_change_request`:
`'pending'` (both defaults), `'approved'` (auto-accept insert at
index.js:2002 and role approval), `'accepted'`/`'declined'`
(PUT /group-join-requests/:id), `'cancelled'`
(DELETE /group-join-requests/:id), `'rejected'` (role review). -/
inductive ReqStatus where
  | pending
  | approved
  | accepted
  | declined
  | cancelled
  | rejected
deriving DecidableEq

/-- `group_join_request` table, with
`CONSTRAINT group_join_request_issue_id_group_id_key UNIQUE (issue_id, group_id)`
(schema.sql:283). `handled_at timestamptz NULL` is modelled as the
Boolean "has been stamped". -/
structure GroupJoinRequest where
  req_id : Nat
  issue_id : Nat
  group_id : Nat
  requested_by_group : Bool
  status : ReqStatus
  handled_at : Bool
deriving DecidableEq

/-- `role_change_request` table; `reviewed_at` modelled as the Boolean
"has been stamped". -/
structure RoleChangeRequest where
  req_id : Nat
  user_id : Nat
  requested_role_id : Nat
  status : ReqStatus
  reviewed_at : Bool
deriving DecidableEq

/-- The database state: one list per table, plus the fresh-id source
standing in for `gen_random_uuid()`. -/
structure DB where
  roles : List Role
  users : List User
  issues : List Issue
  groups : List Group
  issue_upvotes : List IssueUpvote
  group_upvotes : List GroupUpvote
  comments : List Comment
  group_comments : List GroupComment
  join_requests : List GroupJoinRequest
  role_requests : List RoleChangeRequest
  next_id : Nat
deriving DecidableEq

/-- The empty database (freshly created schema). -/
def DB.init : DB :=
  ⟨[], [], [], [], [], [], [], [], [], [], 0⟩

/-- JavaScript `String.prototype.trim` (strip leading and trailing
whitespace), stated on the character list so that it evaluates inside
the kernel (Lean's own `String.trim` does not reduce there). -/
def trimChars (l : List Char) : List Char :=
  ((l.dropWhile Char.isWhitespace).reverse.dropWhile Char.isWhitespace).reverse

/-- `content.trim()` of the comment routes. -/
def strTrim (s : String) : String :=
  ⟨trimChars s.data⟩

instance exceptDecEq {ε α : Type} [DecidableEq ε] [DecidableEq α] :
    DecidableEq (Except ε α) := fun x y =>
  match x, y with
  | Except.ok a, Except.ok b =>
    if h : a = b then Decidable.isTrue (by rw [h])
    else Decidable.isFalse (fun hc => h (Except.ok.inj hc))
  | Except.error e, Except.error f =>
    if h : e = f then Decidable.isTrue (by rw [h])
    else Decidable.isFalse (fun hc => h (Except.error.inj hc))
  | Except.ok _, Except.error _ => Decidable.isFalse (fun hc => Except.noConfusion hc)
  | Except.error _, Except.ok _ => Decidable.isFalse (fun hc => Except.noConfusion hc)

/-- `SELECT ... FROM roles WHERE role_id = $1` (primary-key lookup). -/
def findRole (db : DB) (rid : Nat) : Option Role :=
  db.roles.find? (fun r => decide (r.role_id = rid))

/-- `SELECT ... FROM users WHERE user_id = $1`. -/
def findUser (db : DB) (uid : Nat) : Option User :=
  db.users.find? (fun u => decide (u.user_id = uid))

/-- `SELECT ... FROM issues WHERE issue_id = $1`. -/
def findIssue (db : DB) (iid : Nat) : Option Issue :=
  db.issues.find? (fun i => decide (i.issue_id = iid))

/-- `SELECT ... FROM groups WHERE group_id = $1`. -/
def findGroup (db : DB) (gid : Nat) : Option Group :=
  db.groups.find? (fun g => decide (g.group_id = gid))

/-- `SELECT ... FROM group_join_request WHERE req_id = $1`. -/
def findJoinRequest (db : DB) (rid : Nat) : Option GroupJoinRequest :=
  db.join_requests.find? (fun r => decide (r.req_id = rid))

/-- `SELECT r.upvote_weight FROM users u JOIN roles r ON u.role_id =
r.role_id WHERE u.user_id = $1`: `none` when the user or their role
row is absent (the join yields no row). -/
def userRoleWeight (db : DB) (uid : Nat) : Option Int :=
  match findUser db uid with
  | none => none
  | some u =>
    match findRole db u.role_id with
    | none => none
    | some r => some r.upvote_weight

/-- index.js:1230 `userRoleResult.rows[0]?.upvote_weight || 1`:
JavaScript `||` replaces a missing row, `null`, and the falsy value
`0` by 1. -/
def routeWeight (db : DB) (uid : Nat) : Int :=
  match userRoleWeight db uid with
  | none => 1
  | some w => if w = 0 then 1 else w

/-- The weight resolution of the BEFORE INSERT triggers
`trg_issue_upvote_after_insert` / `trg_group_upvote_after_insert`
(schema.sql:1407, 1285): `IF w IS NULL THEN w := 1` — only a missing
join row defaults to 1. -/
def triggerWeight (db : DB) (uid : Nat) : Int :=
  match userRoleWeight db uid with
  | none => 1
  | some w => w

/-- `UPDATE issues SET ... WHERE issue_id = $1`. -/
def mapIssue (db : DB) (iid : Nat) (f : Issue → Issue) : DB :=
  { db with issues := db.issues.map (fun i => if i.issue_id = iid then f i else i) }

/-- `UPDATE groups SET ... WHERE group_id = $1`. -/
def mapGroup (db : DB) (gid : Nat) (f : Group → Group) : DB :=
  { db with groups := db.groups.map (fun g => if g.group_id = gid then f g else g) }

/-- `UPDATE group_join_request SET ... WHERE req_id = $1`. -/
def mapJoinRequest (db : DB) (rid : Nat) (f : GroupJoinRequest → GroupJoinRequest) : DB :=
  { db with join_requests := db.join_requests.map (fun r => if r.req_id = rid then f r else r) }

/-- `UPDATE role_change_request SET ... WHERE req_id = $1`. -/
def mapRoleRequest (db : DB) (rid : Nat) (f : RoleChangeRequest → RoleChangeRequest) : DB :=
  { db with role_requests := db.role_requests.map (fun r => if r.req_id = rid then f r else r) }

/-- AFTER DELETE trigger `trg_issue_upvote_after_delete`
(schema.sql:1383): `w := COALESCE(OLD.upvote_weight, 1);
UPDATE issues SET upvote_count = GREATEST(COALESCE(upvote_count,0) - w, 0)
WHERE issue_id = OLD.issue_id`. -/
def trg_issue_upvote_after_delete (db : DB) (old : IssueUpvote) : DB :=
  mapIssue db old.issue_id
    (fun i => { i with upvote_count := max (i.upvote_count - old.upvote_weight.getD 1) 0 })

/-- AFTER DELETE trigger `trg_group_upvote_after_delete`
(schema.sql:1261): like the issue variant, floored at 0. -/
def trg_group_upvote_after_delete (db : DB) (old : GroupUpvote) : DB :=
  mapGroup db old.group_id
    (fun g => { g with upvote_count := max (g.upvote_count - old.upvote_weight.getD 1) 0 })

/-- UPDATE trigger `trg_update_issue_group_count` (schema.sql:1445),
fired `WHEN (old.group_id IS DISTINCT FROM new.group_id)`: decrements
the old group's `issue_count` (`GREATEST(... - 1, 0)`) and increments
the new group's. -/
def trg_update_issue_group_count (db : DB) (oldG newG : Option Nat) : DB :=
  let db1 :=
    match oldG with
    | some og => mapGroup db og (fun g => { g with issue_count := max (g.issue_count - 1) 0 })
    | none => db
  match newG with
  | some ng => mapGroup db1 ng (fun g => { g with issue_count := g.issue_count + 1 })
  | none => db1

/-- `UPDATE issues SET group_id = $1 WHERE issue_id = $2` together
with the row trigger above (issue_id is the primary key, so at most
one row is affected). -/
def setIssueGroup (db : DB) (iid : Nat) (newG : Option Nat) : DB :=
  match findIssue db iid with
  | none => db
  | some i =>
    let db1 := mapIssue db iid (fun j => { j with group_id := newG })
    if i.group_id = newG then db1 else trg_update_issue_group_count db1 i.group_id newG

/-- index.js:1216 `POST /issues/:id/upvote` run against the schema:
the route resolves the voter's current role weight with a `|| 1`
default, then either

* removes an existing upvote — the `DELETE` fires
  `trg_issue_upvote_after_delete` (decrement by the stored weight,
  floored), after which the route itself runs
  `UPDATE issues SET upvote_count = GREATEST(upvote_count - $1, 0)`
  with the current role weight — or
* inserts one — the BEFORE INSERT trigger resolves and stores the
  weight and increments the count by it, after which the route runs
  `UPDATE issues SET upvote_count = upvote_count + $1`.

A missing issue makes the insert raise a foreign-key error, or leaves
`result.rows[0]` undefined, either way a 500. -/
def issueUpvoteToggle (db : DB) (iid uid : Nat) : DB × Except ApiError (Bool × Int) :=
  let upvoteWeight := routeWeight db uid
  match db.issue_upvotes.find? (fun v => decide (v.issue_id = iid ∧ v.user_id = uid)) with
  | some v =>
    let db1 := { db with
      issue_upvotes := db.issue_upvotes.eraseP (fun w => decide (w.issue_id = iid ∧ w.user_id = uid)) }
    let db2 := trg_issue_upvote_after_delete db1 v
    let db3 := mapIssue db2 iid
      (fun i => { i with upvote_count := max (i.upvote_count - upvoteWeight) 0 })
    match findIssue db3 iid with
    | some i => (db3, Except.ok (false, i.upvote_count))
    | none => (db3, Except.error ApiError.internal)
  | none =>
    if (findIssue db iid).isSome ∧ (findUser db uid).isSome then
      let w := triggerWeight db uid
      let db1 := mapIssue db iid (fun i => { i with upvote_count := i.upvote_count + w })
      let db2 := { db1 with issue_upvotes := db1.issue_upvotes ++ [⟨iid, uid, some w⟩] }
      let db3 := mapIssue db2 iid
        (fun i => { i with upvote_count := i.upvote_count + upvoteWeight })
      match findIssue db3 iid with
      | some i => (db3, Except.ok (true, i.upvote_count))
      | none => (db3, Except.error ApiError.internal)
    else (db, Except.error ApiError.internal)

/-- index.js:1637 `POST /groups/:id/upvote` run against the schema:
like the issue toggle, except that the route's own count updates use
the constant 1, and the decrement at index.js:1657
(`UPDATE groups SET upvote_count = upvote_count - 1`) has NO
`GREATEST(..., 0)` floor. -/
def groupUpvoteToggle (db : DB) (gid uid : Nat) : DB × Except ApiError (Bool × Int) :=
  match db.group_upvotes.find? (fun v => decide (v.group_id = gid ∧ v.user_id = uid)) with
  | some v =>
    let db1 := { db with
      group_upvotes := db.group_upvotes.eraseP (fun w => decide (w.group_id = gid ∧ w.user_id = uid)) }
    let db2 := trg_group_upvote_after_delete db1 v
    let db3 := mapGroup db2 gid
      (fun g => { g with upvote_count := g.upvote_count - 1 })
    match findGroup db3 gid with
    | some g => (db3, Except.ok (false, g.upvote_count))
    | none => (db3, Except.error ApiError.internal)
  | none =>
    if (findGroup db gid).isSome ∧ (findUser db uid).isSome then
      let w := triggerWeight db uid
      let db1 := mapGroup db gid (fun g => { g with upvote_count := g.upvote_count + w })
      let db2 := { db1 with group_upvotes := db1.group_upvotes ++ [⟨gid, uid, some w⟩] }
      let db3 := mapGroup db2 gid
        (fun g => { g with upvote_count := g.upvote_count + 1 })
      match findGroup db3 gid with
      | some g => (db3, Except.ok (true, g.upvote_count))
      | none => (db3, Except.error ApiError.internal)
    else (db, Except.error ApiError.internal)

/-- index.js:1341 `POST /issues/:id/comments` run against the schema:
rejects content empty after trimming (400); otherwise inserts the
trimmed comment — the AFTER INSERT trigger `trg_inc_issue_comment_count`
adds 1 to the issue's `comment_count` — and then the route itself runs
`UPDATE issues SET comment_count = comment_count + 1` (index.js:1367).
A missing issue or user makes the insert raise a foreign-key error
(500). -/
def addIssueComment (db : DB) (iid uid : Nat) (content : String) : DB × Except ApiError Comment :=
  if strTrim content = "" then (db, Except.error ApiError.badRequest)
  else if (findIssue db iid).isSome ∧ (findUser db uid).isSome then
    let c : Comment := ⟨db.next_id, iid, uid, strTrim content⟩
    let db1 := { db with comments := db.comments ++ [c], next_id := db.next_id + 1 }
    let db2 := mapIssue db1 iid (fun i => { i with comment_count := i.comment_count + 1 })
    let db3 := mapIssue db2 iid (fun i => { i with comment_count := i.comment_count + 1 })
    (db3, Except.ok c)
  else (db, Except.error ApiError.internal)

/-- index.js:1749 `POST /groups/:id/comments` run against the schema:
same shape as the issue variant (`trg_inc_group_comment_count` plus
the route's own `comment_count + 1` at index.js:1775). -/
def addGroupComment (db : DB) (gid uid : Nat) (content : String) : DB × Except ApiError GroupComment :=
  if strTrim content = "" then (db, Except.error ApiError.badRequest)
  else if (findGroup db gid).isSome ∧ (findUser db uid).isSome then
    let c : GroupComment := ⟨db.next_id, gid, uid, strTrim content⟩
    let db1 := { db with group_comments := db.group_comments ++ [c], next_id := db.next_id + 1 }
    let db2 := mapGroup db1 gid (fun g => { g with comment_count := g.comment_count + 1 })
    let db3 := mapGroup db2 gid (fun g => { g with comment_count := g.comment_count + 1 })
    (db3, Except.ok c)
  else (db, Except.error ApiError.internal)

/-- Result of `POST /group-join-requests`: the created row and the
`auto_accepted` flag of the 201 response. -/
structure SubmitJoinResult where
  req : GroupJoinRequest
  auto_accepted : Bool
deriving DecidableEq

/-- index.js:1927 `POST /group-join-requests` run against the schema,
in the route's order: issue lookup (404), group lookup (404),
authorization by the initiating side (403), "already in this group"
(400), "pending request already exists" (400); then either the
auto-accept branch (index.js:1990: when one user owns both, first
`UPDATE issues SET group_id = $1`, then insert an `'approved'` row
with `handled_at = NOW()`) or the normal insert of a `'pending'` row.
Either insert violates the schema's
`UNIQUE (issue_id, group_id)` constraint — any status — when a row
for the pair already exists, which the route surfaces as a 500; in
the auto-accept branch the `group_id` update has already been
applied at that point (the handler runs no transaction). -/
def submitJoinRequest (db : DB) (iid gid : Nat) (requested_by_group : Bool) (uid : Nat) :
    DB × Except ApiError SubmitJoinResult :=
  match findIssue db iid with
  | none => (db, Except.error ApiError.notFound)
  | some issue =>
    match findGroup db gid with
    | none => (db, Except.error ApiError.notFound)
    | some grp =>
      if requested_by_group ∧ grp.owner_id ≠ uid then (db, Except.error ApiError.forbidden)
      else if ¬requested_by_group ∧ issue.user_id ≠ uid then (db, Except.error ApiError.forbidden)
      else if issue.group_id = some gid then (db, Except.error ApiError.badRequest)
      else if db.join_requests.any
          (fun r => decide (r.issue_id = iid ∧ r.group_id = gid ∧ r.status = ReqStatus.pending)) then
        (db, Except.error ApiError.badRequest)
      else if grp.owner_id = issue.user_id ∧ grp.owner_id = uid then
        let db1 := setIssueGroup db iid (some gid)
        if db1.join_requests.any (fun r => decide (r.issue_id = iid ∧ r.group_id = gid)) then
          (db1, Except.error ApiError.internal)
        else
          let req : GroupJoinRequest :=
            ⟨db1.next_id, iid, gid, requested_by_group, ReqStatus.approved, true⟩
          ({ db1 with join_requests := db1.join_requests ++ [req], next_id := db1.next_id + 1 },
            Except.ok ⟨req, true⟩)
      else
        if db.join_requests.any (fun r => decide (r.issue_id = iid ∧ r.group_id = gid)) then
          (db, Except.error ApiError.internal)
        else
          let req : GroupJoinRequest :=
            ⟨db.next_id, iid, gid, requested_by_group, ReqStatus.pending, false⟩
          ({ db with join_requests := db.join_requests ++ [req], next_id := db.next_id + 1 },
            Except.ok ⟨req, false⟩)

/-- The `'accepted' | 'declined'` body values accepted by
`PUT /group-join-requests/:id` (index.js:2117). -/
inductive JoinDecision where
  | accepted
  | declined
deriving DecidableEq

/-- index.js:2111 `PUT /group-join-requests/:id` run against the
schema: the lookup INNER JOINs issues and groups (a dangling request
reads as absent, 404); non-pending is a 400; the party who did NOT
initiate decides (403 otherwise); on accept the route also runs
`UPDATE issues SET group_id = ...`, firing the issue-count trigger. -/
def decideJoinRequest (db : DB) (rid uid : Nat) (decision : JoinDecision) :
    DB × Except ApiError Unit :=
  match findJoinRequest db rid with
  | none => (db, Except.error ApiError.notFound)
  | some r =>
    match findIssue db r.issue_id, findGroup db r.group_id with
    | some issue, some grp =>
      if r.status ≠ ReqStatus.pending then (db, Except.error ApiError.badRequest)
      else
        let canAct := if r.requested_by_group then issue.user_id = uid else grp.owner_id = uid
        if ¬canAct then (db, Except.error ApiError.forbidden)
        else
          let newStatus := match decision with
            | JoinDecision.accepted => ReqStatus.accepted
            | JoinDecision.declined => ReqStatus.declined
          let db1 := mapJoinRequest db rid (fun q => { q with status := newStatus, handled_at := true })
          match decision with
          | JoinDecision.accepted => (setIssueGroup db1 r.issue_id (some r.group_id), Except.ok ())
          | JoinDecision.declined => (db1, Except.ok ())
    | _, _ => (db, Except.error ApiError.notFound)

/-- index.js:2183 `DELETE /group-join-requests/:id` run against the
schema: lookup with INNER JOINs (404), non-pending 400, and then the
authorization at index.js:2209-2217 — ONLY the initiating side may
cancel: the group owner when `requested_by_group`, else the issue
owner; anyone else (including the other owner) gets 403. -/
def cancelJoinRequest (db : DB) (rid uid : Nat) : DB × Except ApiError Unit :=
  match findJoinRequest db rid with
  | none => (db, Except.error ApiError.notFound)
  | some r =>
    match findIssue db r.issue_id, findGroup db r.group_id with
    | some issue, some grp =>
      if r.status ≠ ReqStatus.pending then (db, Except.error ApiError.badRequest)
      else
        let canCancel := if r.requested_by_group then grp.owner_id = uid else issue.user_id = uid
        if ¬canCancel then (db, Except.error ApiError.forbidden)
        else
          (mapJoinRequest db rid (fun q => { q with status := ReqStatus.cancelled, handled_at := true }),
            Except.ok ())
    | _, _ => (db, Except.error ApiError.notFound)

/-- `cancel_group_join_request` stored procedure (schema.sql:654),
present in the schema but never invoked by any route of index.js: it
authorizes EITHER the issue author OR the group owner, regardless of
which side initiated, and does not require the request to be pending.
A raised exception is modelled as an error result. -/
def cancel_group_join_request (db : DB) (rid uid : Nat) : DB × Except ApiError Unit :=
  match findJoinRequest db rid with
  | none => (db, Except.error ApiError.internal)
  | some r =>
    let issueAuthor := (findIssue db r.issue_id).map (fun i => i.user_id)
    let groupOwner := (findGroup db r.group_id).map (fun g => g.owner_id)
    if issueAuthor ≠ some uid ∧ groupOwner ≠ some uid then
      (db, Except.error ApiError.internal)
    else
      (mapJoinRequest db rid (fun q => { q with status := ReqStatus.cancelled, handled_at := true }),
        Except.ok ())

/-- index.js:2367 `POST /role-change-requests` (the plural route):
400 when the user already has ANY `'pending'` role-change request,
404 when the requested role does not exist, otherwise inserts a
`'pending'` row. It does NOT compare the requested role with the
user's current role. A missing user row would violate the insert's
foreign key (500). -/
def submitRoleChangeRequestPlural (db : DB) (uid rid : Nat) :
    DB × Except ApiError RoleChangeRequest :=
  if db.role_requests.any (fun r => decide (r.user_id = uid ∧ r.status = ReqStatus.pending)) then
    (db, Except.error ApiError.badRequest)
  else
    match findRole db rid with
    | none => (db, Except.error ApiError.notFound)
    | some _ =>
      if (findUser db uid).isSome then
        let req : RoleChangeRequest := ⟨db.next_id, uid, rid, ReqStatus.pending, false⟩
        ({ db with role_requests := db.role_requests ++ [req], next_id := db.next_id + 1 },
          Except.ok req)
      else (db, Except.error ApiError.internal)

/-- index.js:435 `POST /role-change-request` (the older singular
route, the one Express serves for that path): 404 when the role does
not exist, 400 when the requested role equals the user's current
role, 400 when a `'pending'` request for the SAME (user, role) pair
exists — a pending request for a different role does not block —
then inserts. Reading `userRole.rows[0].role_id` of a missing user
throws (500). -/
def submitRoleChangeRequestSingular (db : DB) (uid rid : Nat) :
    DB × Except ApiError RoleChangeRequest :=
  match findRole db rid with
  | none => (db, Except.error ApiError.notFound)
  | some _ =>
    match findUser db uid with
    | none => (db, Except.error ApiError.internal)
    | some u =>
      if u.role_id = rid then (db, Except.error ApiError.badRequest)
      else if db.role_requests.any
          (fun r => decide (r.user_id = uid ∧ r.requested_role_id = rid ∧ r.status = ReqStatus.pending)) then
        (db, Except.error ApiError.badRequest)
      else
        let req : RoleChangeRequest := ⟨db.next_id, uid, rid, ReqStatus.pending, false⟩
        ({ db with role_requests := db.role_requests ++ [req], next_id := db.next_id + 1 },
          Except.ok req)

/-- The `'approved' | 'rejected'` body values accepted by
`PUT /admin/role-requests/:id` (index.js:2825). -/
inductive RoleDecision where
  | approved
  | rejected
deriving DecidableEq

/-- index.js:2820 `PUT /admin/role-requests/:id`, which calls the
stored procedure `process_role_change_request` (schema.sql:990): the
procedure looks the request up among pending ones (raising — a 500 —
when absent), stamps the status and `reviewed_at`, and on approval
updates the user's `role_id`. -/
def decideRoleChangeRequest (db : DB) (rid : Nat) (decision : RoleDecision) :
    DB × Except ApiError Unit :=
  match db.role_requests.find?
      (fun r => decide (r.req_id = rid ∧ r.status = ReqStatus.pending)) with
  | none => (db, Except.error ApiError.internal)
  | some r =>
    let newStatus := match decision with
      | RoleDecision.approved => ReqStatus.approved
      | RoleDecision.rejected => ReqStatus.rejected
    let db1 := mapRoleRequest db rid (fun q => { q with status := newStatus, reviewed_at := true })
    match decision with
    | RoleDecision.approved =>
      let users2 := db1.users.map fun u =>
        if u.user_id = r.user_id then { u with role_id := r.requested_role_id } else u
      ({ db1 with users := users2 }, Except.ok ())
    | RoleDecision.rejected => (db1, Except.ok ())

/-- index.js:278 `POST /admin/roles`: rejects a weight below 1
(index.js:285) and a duplicate title, then inserts. -/
def createRole (db : DB) (title : String) (w : Int) : DB × Except ApiError Role :=
  if w < 1 then (db, Except.error ApiError.badRequest)
  else if db.roles.any (fun r => decide (r.title = title)) then
    (db, Except.error ApiError.badRequest)
  else
    let r : Role := ⟨db.next_id, title, w⟩
    ({ db with roles := db.roles ++ [r], next_id := db.next_id + 1 }, Except.ok r)

/-- index.js:327 `PUT /admin/roles/:id` restricted to the
`upvote_weight` field: a weight below 1 is rejected (index.js:335),
a missing role is a 404. -/
def updateRoleWeight (db : DB) (rid : Nat) (w : Int) : DB × Except ApiError Unit :=
  if w < 1 then (db, Except.error ApiError.badRequest)
  else if (findRole db rid).isSome then
    let roles2 := db.roles.map fun r =>
      if r.role_id = rid then { r with upvote_weight := w } else r
    ({ db with roles := roles2 }, Except.ok ())
  else (db, Except.error ApiError.notFound)

/-- User creation (registration): inserts a user carrying an existing
role (`users.role_id` is a NOT NULL foreign key); a duplicate
`user_id` violates the primary key. -/
def createUser (db : DB) (uid rid : Nat) : DB × Except ApiError User :=
  if (findRole db rid).isSome ∧ (findUser db uid).isNone then
    let u : User := ⟨uid, rid⟩
    ({ db with users := db.users ++ [u] }, Except.ok u)
  else (db, Except.error ApiError.internal)

/-- index.js:789 `POST /issues` run against the schema: inserts with
`upvote_count = 0, comment_count = 0` (index.js:810); when a group is
given, the AFTER INSERT trigger `trg_inc_group_issue_count_on_insert`
adds 1 to that group's `issue_count`. Foreign keys require the owner
and, when given, the group to exist. -/
def createIssue (db : DB) (uid : Nat) (gid : Option Nat) : DB × Except ApiError Issue :=
  if (findUser db uid).isSome ∧ gid.all (fun g => (findGroup db g).isSome) then
    let i : Issue := ⟨db.next_id, uid, gid, 0, 0⟩
    let db1 := { db with issues := db.issues ++ [i], next_id := db.next_id + 1 }
    let db2 :=
      match gid with
      | some g => mapGroup db1 g (fun gr => { gr with issue_count := gr.issue_count + 1 })
      | none => db1
    (db2, Except.ok i)
  else (db, Except.error ApiError.internal)

/-- index.js:1392 `POST /groups`: inserts with
`upvote_count = 0, comment_count = 0` (index.js:1428); `issue_count`
takes its column default 0. The owner must exist (foreign key). -/
def createGroup (db : DB) (uid : Nat) : DB × Except ApiError Group :=
  if (findUser db uid).isSome then
    let g : Group := ⟨db.next_id, uid, 0, 0, 0⟩
    ({ db with groups := db.groups ++ [g], next_id := db.next_id + 1 }, Except.ok g)
  else (db, Except.error ApiError.internal)

/-- The issue's current `group_id` as stored. -/
def issueGroup (db : DB) (iid : Nat) : Option (Option Nat) :=
  (findIssue db iid).map (fun i => i.group_id)

/-- What one `group_upvotes` row added to its group's
`upvote_count` when it was inserted through the API: the BEFORE
INSERT trigger added the stored weight and the route added 1. -/
def upvoteContrib (v : GroupUpvote) : Int :=
  v.upvote_weight.getD 1 + 1

/-- Total insertion-time contribution of the stored group votes of a
given group. -/
def groupVoteMass : List GroupUpvote → Nat → Int
  | [], _ => 0
  | v :: t, gid => (if v.group_id = gid then upvoteContrib v else 0) + groupVoteMass t gid

/-- Inductive invariant of the composed system, strengthened enough
to carry through every operation:

* role weights are at least 1 (validated at `POST /admin/roles` and
  `PUT /admin/roles/:id`, index.js:285 and index.js:335);
* the denormalized issue counters are non-negative;
* group `comment_count` and `issue_count` are non-negative;
* each group's `upvote_count` is at least the insertion-time mass of
  its stored votes (this is what protects the UNFLOORED decrement of
  the group-upvote remove branch, index.js:1657);
* stored group-vote weights are non-negative;
* stored ids are below the fresh-id counter;
* at most one `group_join_request` row per (issue_id, group_id) pair
  (the UNIQUE constraint of schema.sql:283). -/
structure Inv (db : DB) : Prop where
  rolesOK : ∀ r ∈ db.roles, 1 ≤ r.upvote_weight
  issuesOK : ∀ i ∈ db.issues, 0 ≤ i.upvote_count ∧ 0 ≤ i.comment_count
  groupsOK : ∀ g ∈ db.groups, 0 ≤ g.comment_count ∧ 0 ≤ g.issue_count
  gvWeights : ∀ v ∈ db.group_upvotes, 0 ≤ v.upvote_weight.getD 1
  gvMass : ∀ g ∈ db.groups, groupVoteMass db.group_upvotes g.group_id ≤ g.upvote_count
  groupsBound : ∀ g ∈ db.groups, g.group_id < db.next_id
  gvBound : ∀ v ∈ db.group_upvotes, v.group_id < db.next_id
  jrUnique : db.join_requests.Pairwise
    (fun a b => ¬(a.issue_id = b.issue_id ∧ a.group_id = b.group_id))

/-- One invocation of any of the modelled API operations, with
arbitrary arguments (the state after is the first component the
handler returns, whether it answered 2xx or an error). -/
inductive Step : DB → DB → Prop where
  | role_create (db : DB) (t : String) (w : Int) : Step db (createRole db t w).1
  | role_update (db : DB) (rid : Nat) (w : Int) : Step db (updateRoleWeight db rid w).1
  | user_create (db : DB) (uid rid : Nat) : Step db (createUser db uid rid).1
  | issue_create (db : DB) (uid : Nat) (gid : Option Nat) : Step db (createIssue db uid gid).1
  | group_create (db : DB) (uid : Nat) : Step db (createGroup db uid).1
  | issue_toggle (db : DB) (iid uid : Nat) : Step db (issueUpvoteToggle db iid uid).1
  | group_toggle (db : DB) (gid uid : Nat) : Step db (groupUpvoteToggle db gid uid).1
  | issue_comment (db : DB) (iid uid : Nat) (c : String) : Step db (addIssueComment db iid uid c).1
  | group_comment (db : DB) (gid uid : Nat) (c : String) : Step db (addGroupComment db gid uid c).1
  | jr_submit (db : DB) (iid gid : Nat) (rbg : Bool) (uid : Nat) :
      Step db (submitJoinRequest db iid gid rbg uid).1
  | jr_decide (db : DB) (rid uid : Nat) (d : JoinDecision) :
      Step db (decideJoinRequest db rid uid d).1
  | jr_cancel (db : DB) (rid uid : Nat) : Step db (cancelJoinRequest db rid uid).1
  | rcr_plural (db : DB) (uid rid : Nat) : Step db (submitRoleChangeRequestPlural db uid rid).1
  | rcr_singular (db : DB) (uid rid : Nat) : Step db (submitRoleChangeRequestSingular db uid rid).1
  | rcr_decide (db : DB) (rid : Nat) (d : RoleDecision) : Step db (decideRoleChangeRequest db rid d).1

/-- States reachable from the empty database through the modelled
operations. -/
def Reachable (db : DB) : Prop :=
  Relation.ReflTransGen Step DB.init db

/-- Reachable sample states used by the witnesses, built by running
the operations: a weight-1 role, users 1 and 2, an issue of user 1,
a group of user 2, an upvote on the group by user 1, and a pending
join request linking the issue to the group. -/
def dbS1 : DB := (createRole DB.init "citizen" 1).1

def dbS2 : DB := (createUser dbS1 1 0).1

def dbS3 : DB := (createUser dbS2 2 0).1

def dbS4 : DB := (createIssue dbS3 1 none).1

def dbS5 : DB := (createGroup dbS4 2).1

def dbS6 : DB := (groupUpvoteToggle dbS5 2 1).1

def dbS7 : DB := (submitJoinRequest dbS6 1 2 false 1).1

/-- State for C1: user 7 cast the vote on issue 1 when their role
weight was 2 (the stored `upvote_weight`), the role's weight has
since been changed to 5, and the issue's count stands at 10. -/
def dbC1 : DB :=
  ⟨[⟨0, "five", 5⟩], [⟨7, 0⟩], [⟨1, 7, none, 10, 0⟩], [], [⟨1, 7, some 2⟩], [], [], [], [], [], 100⟩

/-- State for C2: user 7 holds a role of weight 2 and has not voted
on issue 1, whose count is 0. -/
def dbC2 : DB :=
  ⟨[⟨0, "two", 2⟩], [⟨7, 0⟩], [⟨1, 7, none, 0, 0⟩], [], [], [], [], [], [], [], 100⟩

/-- State for C9: issue 1 exists with `comment_count` 0. -/
def dbC9 : DB :=
  ⟨[⟨0, "one", 1⟩], [⟨7, 0⟩], [⟨1, 7, none, 0, 0⟩], [], [], [], [], [], [], [], 100⟩

/-- Raw state for C3's counterexample: group 5 with `upvote_count` 0
while a weight-1 vote row exists, exhibiting the remove-branch count
update in isolation. -/
def dbC3 : DB :=
  ⟨[], [], [], [⟨5, 9, 0, 0, 0⟩], [], [⟨5, 7, some 1⟩], [], [], [], [], 100⟩

/-- State for C4: a pending request by the ISSUE side
(`requested_by_group = false`) linking issue 10 (owner: user 1) to
group 20 (owner: user 2). -/
def dbC4 : DB :=
  ⟨[], [⟨1, 0⟩, ⟨2, 0⟩], [⟨10, 1, none, 0, 0⟩], [⟨20, 2, 0, 0, 0⟩], [], [], [], [],
    [⟨30, 10, 20, false, ReqStatus.pending, false⟩], [], 100⟩

/-- State for C5: user 1 owns both issue 10 (currently in no group)
and group 20; the pair (10, 20) still carries a CANCELLED request
row, so the spec's three submission preconditions (existence, not
already linked, no pending request) all hold. -/
def dbC5 : DB :=
  ⟨[], [⟨1, 0⟩], [⟨10, 1, none, 0, 0⟩], [⟨20, 1, 0, 0, 0⟩], [], [], [], [],
    [⟨30, 10, 20, false, ReqStatus.cancelled, true⟩], [], 100⟩

/-- State for C6: a CANCELLED request row for the pair (10, 20);
issue 10 is owned by user 1, group 20 by user 2. -/
def dbC6 : DB :=
  ⟨[], [⟨1, 0⟩, ⟨2, 0⟩], [⟨10, 1, none, 0, 0⟩], [⟨20, 2, 0, 0, 0⟩], [], [], [], [],
    [⟨30, 10, 20, false, ReqStatus.cancelled, true⟩], [], 100⟩

/-- State for C7: user 7 already has a vote on issue 1, stored at
weight 2; the role's weight has since become 5; the count is 20. -/
def dbC7 : DB :=
  ⟨[⟨0, "five", 5⟩], [⟨7, 0⟩], [⟨1, 7, none, 20, 0⟩], [], [⟨1, 7, some 2⟩], [], [], [], [], [], 100⟩

/-- State for C8: user 7 currently holds role 0, which exists, and
has no role-change request on file. -/
def dbC8 : DB :=
  ⟨[⟨0, "citizen", 1⟩], [⟨7, 0⟩], [], [], [], [], [], [], [], [], 100⟩

/-- Witness state for C5: user 1 owns issue 10 and group 20 and the
pair has no request row at all. -/
def dbW5 : DB :=
  ⟨[], [⟨1, 0⟩], [⟨10, 1, none, 0, 0⟩], [⟨20, 1, 0, 0, 0⟩], [], [], [], [], [], [], 50⟩

/-- Witness state for C6: a PENDING request row for the pair
(10, 20); issue 10 is owned by user 1, group 20 by user 2. -/
def dbW6 : DB :=
  ⟨[], [⟨1, 0⟩, ⟨2, 0⟩], [⟨10, 1, none, 0, 0⟩], [⟨20, 2, 0, 0, 0⟩], [], [], [], [],
    [⟨30, 10, 20, false, ReqStatus.pending, false⟩], [], 100⟩

/-- Witness state for C7: user 7 (role weight 2) has no vote on
issue 1, which stands at count 5. -/
def dbW7 : DB :=
  ⟨[⟨0, "two", 2⟩], [⟨7, 0⟩], [⟨1, 7, none, 5, 0⟩], [], [], [], [], [], [], [], 100⟩

/-- Witness state for C8: user 7 holds role 0 and requests the
distinct existing role 3; no request is on file. -/
def dbW8 : DB :=
  ⟨[⟨0, "citizen", 1⟩, ⟨3, "organizer", 2⟩], [⟨7, 0⟩], [], [], [], [], [], [], [], [], 50⟩

/-- Second witness state for C8: the same roles and user, but user 7
already has a PENDING role-change request on file. -/
def dbW8b : DB :=
  ⟨[⟨0, "citizen", 1⟩, ⟨3, "organizer", 2⟩], [⟨7, 0⟩], [], [], [], [], [], [], [],
    [⟨40, 7, 3, ReqStatus.pending, false⟩], 50⟩

/-- C1: removing the vote leaves the count at 3, not the claimed
10 − 2 = 8 — the AFTER DELETE trigger subtracts the stored weight 2
and then the route handler subtracts the CURRENT role weight 5 as
well (index.js:1246 on top of schema.sql:1383). The vote row itself
is deleted and the handler reports `upvoted: false`. -/
theorem c1_remove_decrements_stored_plus_current :
    (issueUpvoteToggle dbC1 1 7).2 = Except.ok (false, 3) ∧
    (issueUpvoteToggle dbC1 1 7).1.issue_upvotes = [] ∧
    (issueUpvoteToggle dbC1 1 7).1.issues.map (fun i => i.upvote_count) = [3] ∧
    (3 : Int) ≠ 10 - 2 := by
  refine ⟨by decide, by decide, by decide, by decide⟩

/-- C2: casting the vote stores weight 2 on the vote row as claimed,
but raises the count by 4, not 2 — the BEFORE INSERT trigger adds
the resolved weight (schema.sql:1407) and then the route adds it
again (index.js:1262). -/
theorem c2_insert_increments_twice_the_weight :
    (issueUpvoteToggle dbC2 1 7).2 = Except.ok (true, 4) ∧
    (issueUpvoteToggle dbC2 1 7).1.issue_upvotes = [⟨1, 7, some 2⟩] ∧
    (4 : Int) ≠ 2 := by
  refine ⟨by decide, by decide, by decide⟩

/-- C9: whitespace-only content is rejected as claimed, but a real
comment raises `comment_count` by 2, not 1 — the AFTER INSERT
trigger adds 1 (schema.sql:1364) and the route adds 1 again
(index.js:1367). -/
theorem c9_comment_validates_but_double_counts :
    (addIssueComment dbC9 1 7 "   ").2 = Except.error ApiError.badRequest ∧
    (addIssueComment dbC9 1 7 "   ").1 = dbC9 ∧
    (addIssueComment dbC9 1 7 "hi").1.issues.map (fun i => i.comment_count) = [2] ∧
    (2 : Int) ≠ 1 := by
  refine ⟨by decide, by decide, by decide, by decide⟩

/-- C3 counterexample to "every decrement is floored at 0": the
remove branch of `POST /groups/:id/upvote` applied at count 0 drives
the count to −1 — the route's `upvote_count = upvote_count - 1`
(index.js:1657) carries no `GREATEST(..., 0)`, so this decrement is
not floored at 0. -/
theorem c3_group_remove_decrement_is_not_floored :
    (groupUpvoteToggle dbC3 5 7).2 = Except.ok (false, -1) ∧
    (groupUpvoteToggle dbC3 5 7).1.groups.map (fun g => g.upvote_count) = [-1] ∧
    (-1 : Int) < 0 := by
  refine ⟨by decide, by decide, by decide⟩

/-- C4 counterexample: the claim says the GROUP owner (user 2) may
cancel this still-pending request; the route
`DELETE /group-join-requests/:id` answers 403 Forbidden and changes
nothing, because index.js:2209-2217 authorizes only the initiating
side (here the issue owner). -/
theorem c4_group_owner_cannot_cancel_issue_initiated_request :
    (cancelJoinRequest dbC4 30 2).2 = Except.error ApiError.forbidden ∧
    (cancelJoinRequest dbC4 30 2).1 = dbC4 := by
  refine ⟨by decide, by decide⟩

/-- C5 counterexample: with the spec's submission preconditions
satisfied, the auto-accept branch does NOT create an approved
request: the insert trips the schema's UNIQUE (issue_id, group_id)
constraint on the lingering cancelled row (500), after the branch has
already set the issue's `group_id` (index.js:1996 precedes the insert
at index.js:2002 and the handler runs no transaction). -/
theorem c5_auto_accept_fails_on_lingering_request_row :
    (submitJoinRequest dbC5 10 20 false 1).2 = Except.error ApiError.internal ∧
    (submitJoinRequest dbC5 10 20 false 1).1.join_requests = dbC5.join_requests ∧
    issueGroup (submitJoinRequest dbC5 10 20 false 1).1 10 = some (some 20) := by
  refine ⟨by decide, by decide, by decide⟩

/-- C6 counterexample: after the first request was cancelled, a new
submission for the same (issue, group) pair does NOT succeed — the
insert violates the UNIQUE (issue_id, group_id) constraint
(schema.sql:283), surfacing as a 500, and no new row is created. -/
theorem c6_resubmission_after_cancel_fails :
    (submitJoinRequest dbC6 10 20 false 1).2 = Except.error ApiError.internal ∧
    (submitJoinRequest dbC6 10 20 false 1).1 = dbC6 := by
  refine ⟨by decide, by decide⟩

/-- C7 counterexample: toggling twice from a state that already holds
a vote removes it (−2 stored − 5 current) and re-casts it (+5 +5),
leaving the count at 23 ≠ 20 AND a persisting vote row — against the
claim that the count returns to its prior value and no Vote row
remains. -/
theorem c7_double_toggle_with_existing_vote_persists_a_row :
    (issueUpvoteToggle (issueUpvoteToggle dbC7 1 7).1 1 7).1.issues.map
        (fun i => i.upvote_count) = [23] ∧
    (issueUpvoteToggle (issueUpvoteToggle dbC7 1 7).1 1 7).1.issue_upvotes = [⟨1, 7, some 5⟩] ∧
    (23 : Int) ≠ 20 := by
  refine ⟨by decide, by decide, by decide⟩

/-- C8 counterexample: requesting one's CURRENT role through
`POST /role-change-requests` (index.js:2367) succeeds with a pending
request — the plural route never compares the requested role with
the user's current role, against the claim's "fails Conflict when r
equals u's current role". -/
theorem c8_plural_route_accepts_current_role :
    (submitRoleChangeRequestPlural dbC8 7 0).2 =
      Except.ok ⟨100, 7, 0, ReqStatus.pending, false⟩ := by
  decide

/-! ### Generic list lemmas -/

theorem forall_mem_map_self {α : Type} {P : α → Prop} {g : α → α} {l : List α}
    (hl : ∀ x ∈ l, P x) (hg : ∀ x, P x → P (g x)) : ∀ x ∈ l.map g, P x := by
  intro x hx
  rcases List.mem_map.mp hx with ⟨y, hy, rfl⟩
  exact hg y (hl y hy)

theorem find?_map_comm {α : Type} (l : List α) (g : α → α) (p : α → Bool)
    (h : ∀ x, p (g x) = p x) : (l.map g).find? p = (l.find? p).map g := by
  induction l with
  | nil => rfl
  | cons a t ih =>
    cases hpa : p a with
    | true =>
      have h1 : p (g a) = true := by rw [h a]; exact hpa
      rw [List.map_cons, List.find?_cons_of_pos _ h1, List.find?_cons_of_pos _ hpa]
      rfl
    | false =>
      have h1 : ¬p (g a) = true := by rw [h a, hpa]; exact Bool.false_ne_true
      have h2 : ¬p a = true := by rw [hpa]; exact Bool.false_ne_true
      rw [List.map_cons, List.find?_cons_of_neg _ h1, List.find?_cons_of_neg _ h2, ih]

theorem find?_append_of_none {α : Type} (l1 l2 : List α) (p : α → Bool)
    (h : l1.find? p = none) : (l1 ++ l2).find? p = l2.find? p := by
  induction l1 with
  | nil => rfl
  | cons a t ih =>
    have hpa : ¬p a = true := List.find?_eq_none.mp h a (List.mem_cons_self a t)
    have ht : t.find? p = none :=
      List.find?_eq_none.mpr (fun x hx => List.find?_eq_none.mp h x (List.mem_cons_of_mem a hx))
    rw [List.cons_append, List.find?_cons_of_neg _ hpa, ih ht]

theorem eraseP_append_of_none {α : Type} (l1 l2 : List α) (p : α → Bool)
    (h : l1.find? p = none) : (l1 ++ l2).eraseP p = l1 ++ l2.eraseP p :=
  List.eraseP_append_right l2 (fun b hb => List.find?_eq_none.mp h b hb)

/-! ### Vote-mass lemmas -/

theorem groupVoteMass_nonneg (l : List GroupUpvote) (gid : Nat)
    (h : ∀ v ∈ l, 0 ≤ v.upvote_weight.getD 1) : 0 ≤ groupVoteMass l gid := by
  induction l with
  | nil => simp [groupVoteMass]
  | cons v t ih =>
    have hv := h v (List.mem_cons_self v t)
    have ht := ih (fun w hw => h w (List.mem_cons_of_mem v hw))
    by_cases hg : v.group_id = gid
    · simp only [groupVoteMass, hg, if_pos, upvoteContrib]
      omega
    · simp only [groupVoteMass, hg, if_neg, not_false_iff]
      omega

theorem groupVoteMass_append (l1 l2 : List GroupUpvote) (gid : Nat) :
    groupVoteMass (l1 ++ l2) gid = groupVoteMass l1 gid + groupVoteMass l2 gid := by
  induction l1 with
  | nil => simp [groupVoteMass]
  | cons v t ih =>
    rw [List.cons_append]
    simp only [groupVoteMass]
    rw [ih]
    omega

theorem groupVoteMass_eraseP (l : List GroupUpvote) (p : GroupUpvote → Bool)
    (v : GroupUpvote) (h : l.find? p = some v) (gid : Nat) :
    groupVoteMass (l.eraseP p) gid
      = groupVoteMass l gid - (if v.group_id = gid then upvoteContrib v else 0) := by
  induction l with
  | nil => cases h
  | cons a t ih =>
    cases hpa : p a with
    | true =>
      rw [List.find?_cons_of_pos _ hpa] at h
      obtain rfl : a = v := Option.some.inj h
      rw [List.eraseP_cons_of_pos hpa]
      simp only [groupVoteMass]
      omega
    | false =>
      have hpa' : ¬p a = true := by rw [hpa]; exact Bool.false_ne_true
      rw [List.find?_cons_of_neg _ hpa'] at h
      rw [List.eraseP_cons_of_neg hpa']
      simp only [groupVoteMass, ih h]
      omega

theorem groupVoteMass_eq_zero (l : List GroupUpvote) (gid : Nat)
    (h : ∀ v ∈ l, v.group_id ≠ gid) : groupVoteMass l gid = 0 := by
  induction l with
  | nil => rfl
  | cons v t ih =>
    have hv := h v (List.mem_cons_self v t)
    have ht := ih (fun w hw => h w (List.mem_cons_of_mem v hw))
    simp [groupVoteMass, hv, ht]

/-! ### Resolved-weight bounds -/

theorem userRoleWeight_mem (db : DB) (uid : Nat) (w : Int)
    (h : userRoleWeight db uid = some w) : ∃ r ∈ db.roles, r.upvote_weight = w := by
  unfold userRoleWeight at h
  cases hu : findUser db uid with
  | none => rw [hu] at h; cases h
  | some u =>
    rw [hu] at h
    have h2 : (match findRole db u.role_id with
      | none => none
      | some r => some r.upvote_weight) = some w := h
    cases hr : findRole db u.role_id with
    | none => rw [hr] at h2; cases h2
    | some r =>
      rw [hr] at h2
      exact ⟨r, List.mem_of_find?_eq_some hr, Option.some.inj h2⟩

theorem one_le_triggerWeight (db : DB) (uid : Nat)
    (h : ∀ r ∈ db.roles, 1 ≤ r.upvote_weight) : 1 ≤ triggerWeight db uid := by
  unfold triggerWeight
  cases hw : userRoleWeight db uid with
  | none => exact le_refl 1
  | some w =>
    show 1 ≤ w
    rcases userRoleWeight_mem db uid w hw with ⟨r, hrm, hrw⟩
    exact hrw ▸ h r hrm

theorem one_le_routeWeight (db : DB) (uid : Nat)
    (h : ∀ r ∈ db.roles, 1 ≤ r.upvote_weight) : 1 ≤ routeWeight db uid := by
  unfold routeWeight
  cases hw : userRoleWeight db uid with
  | none => exact le_refl 1
  | some w =>
    show 1 ≤ if w = 0 then 1 else w
    rcases userRoleWeight_mem db uid w hw with ⟨r, hrm, hrw⟩
    have h1 : 1 ≤ w := hrw ▸ h r hrm
    have h0 : ¬w = 0 := by omega
    rw [if_neg h0]
    exact h1

/-! ### Invariant preservation, operation by operation -/

theorem inv_createRole (db : DB) (t : String) (w : Int) (h : Inv db) :
    Inv (createRole db t w).1 := by
  unfold createRole
  split
  · exact h
  · split
    · exact h
    · rename_i h1 _
      refine ⟨?_, h.issuesOK, h.groupsOK, h.gvWeights, h.gvMass, ?_, ?_, h.jrUnique⟩
      · intro r hr
        rcases List.mem_append.mp hr with hr | hr
        · exact h.rolesOK r hr
        · rw [List.mem_singleton.mp hr]
          show (1 : Int) ≤ w
          omega
      · exact fun g hg => Nat.lt_succ_of_lt (h.groupsBound g hg)
      · exact fun v hv => Nat.lt_succ_of_lt (h.gvBound v hv)

theorem inv_updateRoleWeight (db : DB) (rid : Nat) (w : Int) (h : Inv db) :
    Inv (updateRoleWeight db rid w).1 := by
  unfold updateRoleWeight
  split
  · exact h
  · split
    · rename_i h1 _
      refine ⟨?_, h.issuesOK, h.groupsOK, h.gvWeights, h.gvMass, h.groupsBound, h.gvBound,
        h.jrUnique⟩
      refine forall_mem_map_self h.rolesOK ?_
      intro r hr
      by_cases he : r.role_id = rid
      · rw [if_pos he]
        show (1 : Int) ≤ w
        omega
      · rw [if_neg he]; exact hr
    · exact h

theorem inv_createUser (db : DB) (uid rid : Nat) (h : Inv db) :
    Inv (createUser db uid rid).1 := by
  unfold createUser
  split
  · exact ⟨h.rolesOK, h.issuesOK, h.groupsOK, h.gvWeights, h.gvMass, h.groupsBound, h.gvBound,
      h.jrUnique⟩
  · exact h

theorem inv_createGroup (db : DB) (uid : Nat) (h : Inv db) :
    Inv (createGroup db uid).1 := by
  unfold createGroup
  split
  · refine ⟨h.rolesOK, h.issuesOK, ?_, h.gvWeights, ?_, ?_, ?_, h.jrUnique⟩
    · intro g hg
      rcases List.mem_append.mp hg with hg | hg
      · exact h.groupsOK g hg
      · rw [List.mem_singleton.mp hg]
        exact ⟨le_refl 0, le_refl 0⟩
    · intro g hg
      rcases List.mem_append.mp hg with hg | hg
      · exact h.gvMass g hg
      · rw [List.mem_singleton.mp hg]
        have hz : groupVoteMass db.group_upvotes db.next_id = 0 :=
          groupVoteMass_eq_zero _ _ (fun v hv => Nat.ne_of_lt (h.gvBound v hv))
        simp [hz]
    · intro g hg
      rcases List.mem_append.mp hg with hg | hg
      · exact Nat.lt_succ_of_lt (h.groupsBound g hg)
      · rw [List.mem_singleton.mp hg]
        exact Nat.lt_succ_self _
    · exact fun v hv => Nat.lt_succ_of_lt (h.gvBound v hv)
  · exact h

theorem inv_createIssue (db : DB) (uid : Nat) (gid : Option Nat) (h : Inv db) :
    Inv (createIssue db uid gid).1 := by
  unfold createIssue
  split
  · have hIss : ∀ i ∈ db.issues ++ [(⟨db.next_id, uid, gid, 0, 0⟩ : Issue)],
        0 ≤ i.upvote_count ∧ 0 ≤ i.comment_count := by
      intro i hi
      rcases List.mem_append.mp hi with hi | hi
      · exact h.issuesOK i hi
      · rw [List.mem_singleton.mp hi]
        exact ⟨le_refl 0, le_refl 0⟩
    split
    · refine ⟨h.rolesOK, hIss, ?_, h.gvWeights, ?_, ?_, ?_, h.jrUnique⟩
      · refine forall_mem_map_self h.groupsOK ?_
        intro g hg
        split
        · exact ⟨hg.1, by have h2 := hg.2; dsimp only; omega⟩
        · exact hg
      · refine forall_mem_map_self h.gvMass ?_
        intro g hg
        split
        · exact hg
        · exact hg
      · refine forall_mem_map_self (fun g hg => Nat.lt_succ_of_lt (h.groupsBound g hg)) ?_
        intro g hg
        split
        · exact hg
        · exact hg
      · exact fun v hv => Nat.lt_succ_of_lt (h.gvBound v hv)
    · exact ⟨h.rolesOK, hIss, h.groupsOK, h.gvWeights, h.gvMass,
        fun g hg => Nat.lt_succ_of_lt (h.groupsBound g hg),
        fun v hv => Nat.lt_succ_of_lt (h.gvBound v hv), h.jrUnique⟩
  · exact h

theorem inv_addIssueComment (db : DB) (iid uid : Nat) (c : String) (h : Inv db) :
    Inv (addIssueComment db iid uid c).1 := by
  unfold addIssueComment
  split
  · exact h
  · split
    · have step : ∀ l : List Issue, (∀ i ∈ l, 0 ≤ i.upvote_count ∧ 0 ≤ i.comment_count) →
          ∀ i ∈ l.map (fun i =>
            if i.issue_id = iid then { i with comment_count := i.comment_count + 1 } else i),
            0 ≤ i.upvote_count ∧ 0 ≤ i.comment_count := by
        intro l hl
        refine forall_mem_map_self hl ?_
        intro i hi
        split
        · exact ⟨hi.1, by have h2 := hi.2; dsimp only; omega⟩
        · exact hi
      refine ⟨h.rolesOK, ?_, h.groupsOK, h.gvWeights, h.gvMass, ?_, ?_, h.jrUnique⟩
      · refine step _ (step _ ?_)
        intro i hi
        exact h.issuesOK i hi
      · exact fun g hg => Nat.lt_succ_of_lt (h.groupsBound g hg)
      · exact fun v hv => Nat.lt_succ_of_lt (h.gvBound v hv)
    · exact h

theorem inv_addGroupComment (db : DB) (gid uid : Nat) (c : String) (h : Inv db) :
    Inv (addGroupComment db gid uid c).1 := by
  unfold addGroupComment
  split
  · exact h
  · split
    · have stepG : ∀ l : List Group, (∀ g ∈ l, 0 ≤ g.comment_count ∧ 0 ≤ g.issue_count) →
          ∀ g ∈ l.map (fun g =>
            if g.group_id = gid then { g with comment_count := g.comment_count + 1 } else g),
            0 ≤ g.comment_count ∧ 0 ≤ g.issue_count := by
        intro l hl
        refine forall_mem_map_self hl ?_
        intro g hg
        split
        · exact ⟨by have h1 := hg.1; dsimp only; omega, hg.2⟩
        · exact hg
      have stepM : ∀ l : List Group,
          (∀ g ∈ l, groupVoteMass db.group_upvotes g.group_id ≤ g.upvote_count) →
          ∀ g ∈ l.map (fun g =>
            if g.group_id = gid then { g with comment_count := g.comment_count + 1 } else g),
            groupVoteMass db.group_upvotes g.group_id ≤ g.upvote_count := by
        intro l hl
        refine forall_mem_map_self hl ?_
        intro g hg
        split
        · exact hg
        · exact hg
      have stepB : ∀ l : List Group, (∀ g ∈ l, g.group_id < db.next_id + 1) →
          ∀ g ∈ l.map (fun g =>
            if g.group_id = gid then { g with comment_count := g.comment_count + 1 } else g),
            g.group_id < db.next_id + 1 := by
        intro l hl
        refine forall_mem_map_self hl ?_
        intro g hg
        split
        · exact hg
        · exact hg
      refine ⟨h.rolesOK, h.issuesOK, ?_, h.gvWeights, ?_, ?_, ?_, h.jrUnique⟩
      · exact stepG _ (stepG _ h.groupsOK)
      · exact stepM _ (stepM _ h.gvMass)
      · exact stepB _ (stepB _ (fun g hg => Nat.lt_succ_of_lt (h.groupsBound g hg)))
      · exact fun v hv => Nat.lt_succ_of_lt (h.gvBound v hv)
    · exact h

theorem inv_submitRoleChangeRequestPlural (db : DB) (uid rid : Nat) (h : Inv db) :
    Inv (submitRoleChangeRequestPlural db uid rid).1 := by
  unfold submitRoleChangeRequestPlural
  split
  · exact h
  · split
    · exact h
    · split
      · exact ⟨h.rolesOK, h.issuesOK, h.groupsOK, h.gvWeights, h.gvMass,
          fun g hg => Nat.lt_succ_of_lt (h.groupsBound g hg),
          fun v hv => Nat.lt_succ_of_lt (h.gvBound v hv), h.jrUnique⟩
      · exact h

theorem inv_submitRoleChangeRequestSingular (db : DB) (uid rid : Nat) (h : Inv db) :
    Inv (submitRoleChangeRequestSingular db uid rid).1 := by
  unfold submitRoleChangeRequestSingular
  split
  · exact h
  · split
    · exact h
    · split
      · exact h
      · split
        · exact h
        · exact ⟨h.rolesOK, h.issuesOK, h.groupsOK, h.gvWeights, h.gvMass,
            fun g hg => Nat.lt_succ_of_lt (h.groupsBound g hg),
            fun v hv => Nat.lt_succ_of_lt (h.gvBound v hv), h.jrUnique⟩

theorem inv_decideRoleChangeRequest (db : DB) (rid : Nat) (d : RoleDecision) (h : Inv db) :
    Inv (decideRoleChangeRequest db rid d).1 := by
  unfold decideRoleChangeRequest
  split
  · exact h
  · split
    · exact ⟨h.rolesOK, h.issuesOK, h.groupsOK, h.gvWeights, h.gvMass, h.groupsBound,
        h.gvBound, h.jrUnique⟩
    · exact ⟨h.rolesOK, h.issuesOK, h.groupsOK, h.gvWeights, h.gvMass, h.groupsBound,
        h.gvBound, h.jrUnique⟩

theorem inv_mapGroup_issue_count (db : DB) (gid : Nat) (f : Int → Int)
    (hf : ∀ x : Int, 0 ≤ x → 0 ≤ f x) (h : Inv db) :
    Inv (mapGroup db gid (fun g => { g with issue_count := f g.issue_count })) := by
  refine ⟨h.rolesOK, h.issuesOK, ?_, h.gvWeights, ?_, ?_, h.gvBound, h.jrUnique⟩
  · refine forall_mem_map_self h.groupsOK ?_
    intro g hg
    split
    · exact ⟨hg.1, hf _ hg.2⟩
    · exact hg
  · refine forall_mem_map_self h.gvMass ?_
    intro g hg
    split
    · exact hg
    · exact hg
  · refine forall_mem_map_self h.groupsBound ?_
    intro g hg
    split
    · exact hg
    · exact hg

theorem inv_trg_update_issue_group_count (db : DB) (oldG newG : Option Nat) (h : Inv db) :
    Inv (trg_update_issue_group_count db oldG newG) := by
  unfold trg_update_issue_group_count
  have h1 : Inv (match oldG with
      | some og => mapGroup db og (fun g => { g with issue_count := max (g.issue_count - 1) 0 })
      | none => db) := by
    cases oldG with
    | none => exact h
    | some og =>
      exact inv_mapGroup_issue_count db og (fun x => max (x - 1) 0)
        (fun x _ => le_max_right _ 0) h
  cases newG with
  | none => exact h1
  | some ng =>
    exact inv_mapGroup_issue_count _ ng (fun x => x + 1) (fun x hx => by dsimp only; omega) h1

theorem inv_setIssueGroup (db : DB) (iid : Nat) (newG : Option Nat) (h : Inv db) :
    Inv (setIssueGroup db iid newG) := by
  unfold setIssueGroup
  split
  · exact h
  · have hmap : Inv (mapIssue db iid (fun j => { j with group_id := newG })) := by
      refine ⟨h.rolesOK, ?_, h.groupsOK, h.gvWeights, h.gvMass, h.groupsBound, h.gvBound,
        h.jrUnique⟩
      refine forall_mem_map_self h.issuesOK ?_
      intro j hj
      split
      · exact hj
      · exact hj
    split
    · exact hmap
    · exact inv_trg_update_issue_group_count _ _ _ hmap

theorem inv_mapJoinRequest (db : DB) (rid : Nat) (f : GroupJoinRequest → GroupJoinRequest)
    (hf : ∀ r, (f r).issue_id = r.issue_id ∧ (f r).group_id = r.group_id) (h : Inv db) :
    Inv (mapJoinRequest db rid f) := by
  refine ⟨h.rolesOK, h.issuesOK, h.groupsOK, h.gvWeights, h.gvMass, h.groupsBound, h.gvBound, ?_⟩
  refine List.Pairwise.map _ ?_ h.jrUnique
  intro a b hab hcon
  apply hab
  have ea : ∀ r : GroupJoinRequest,
      (if r.req_id = rid then f r else r).issue_id = r.issue_id ∧
      (if r.req_id = rid then f r else r).group_id = r.group_id := by
    intro r
    split
    · exact hf r
    · exact ⟨rfl, rfl⟩
  exact ⟨by rw [← (ea a).1, ← (ea b).1]; exact hcon.1,
    by rw [← (ea a).2, ← (ea b).2]; exact hcon.2⟩

theorem jrUnique_append (l : List GroupJoinRequest) (req : GroupJoinRequest)
    (hl : l.Pairwise (fun a b => ¬(a.issue_id = b.issue_id ∧ a.group_id = b.group_id)))
    (hnew : ∀ a ∈ l, ¬(a.issue_id = req.issue_id ∧ a.group_id = req.group_id)) :
    (l ++ [req]).Pairwise (fun a b => ¬(a.issue_id = b.issue_id ∧ a.group_id = b.group_id)) := by
  rw [List.pairwise_append]
  refine ⟨hl, List.pairwise_singleton _ _, ?_⟩
  intro a ha b hb
  rw [List.mem_singleton.mp hb]
  exact hnew a ha

theorem inv_submitJoinRequest (db : DB) (iid gid : Nat) (rbg : Bool) (uid : Nat) (h : Inv db) :
    Inv (submitJoinRequest db iid gid rbg uid).1 := by
  unfold submitJoinRequest
  split
  · exact h
  · split
    · exact h
    · split
      · exact h
      · split
        · exact h
        · split
          · exact h
          · split
            · exact h
            · split
              · -- auto-accept branch
                dsimp only
                split
                · exact inv_setIssueGroup db iid (some gid) h
                · rename_i hnone
                  have h1 := inv_setIssueGroup db iid (some gid) h
                  refine ⟨h1.rolesOK, h1.issuesOK, h1.groupsOK, h1.gvWeights, h1.gvMass,
                    fun g hg => Nat.lt_succ_of_lt (h1.groupsBound g hg),
                    fun v hv => Nat.lt_succ_of_lt (h1.gvBound v hv), ?_⟩
                  refine jrUnique_append _ _ h1.jrUnique ?_
                  intro a ha hcon
                  exact hnone (List.any_eq_true.mpr ⟨a, ha, decide_eq_true hcon⟩)
              · dsimp only
                split
                · exact h
                · rename_i hnone
                  refine ⟨h.rolesOK, h.issuesOK, h.groupsOK, h.gvWeights, h.gvMass,
                    fun g hg => Nat.lt_succ_of_lt (h.groupsBound g hg),
                    fun v hv => Nat.lt_succ_of_lt (h.gvBound v hv), ?_⟩
                  refine jrUnique_append _ _ h.jrUnique ?_
                  intro a ha hcon
                  exact hnone (List.any_eq_true.mpr ⟨a, ha, decide_eq_true hcon⟩)

theorem inv_decideJoinRequest (db : DB) (rid uid : Nat) (d : JoinDecision) (h : Inv db) :
    Inv (decideJoinRequest db rid uid d).1 := by
  unfold decideJoinRequest
  split
  · exact h
  · split
    · split
      · exact h
      · dsimp only
        split
        · split
          · exact h
          · cases d
            · exact inv_setIssueGroup _ _ _ (inv_mapJoinRequest db rid
                (fun q => { q with status := ReqStatus.accepted, handled_at := true })
                (fun r => ⟨rfl, rfl⟩) h)
            · exact inv_mapJoinRequest db rid
                (fun q => { q with status := ReqStatus.declined, handled_at := true })
                (fun r => ⟨rfl, rfl⟩) h
        · split
          · exact h
          · cases d
            · exact inv_setIssueGroup _ _ _ (inv_mapJoinRequest db rid
                (fun q => { q with status := ReqStatus.accepted, handled_at := true })
                (fun r => ⟨rfl, rfl⟩) h)
            · exact inv_mapJoinRequest db rid
                (fun q => { q with status := ReqStatus.declined, handled_at := true })
                (fun r => ⟨rfl, rfl⟩) h
    · exact h

theorem inv_cancelJoinRequest (db : DB) (rid uid : Nat) (h : Inv db) :
    Inv (cancelJoinRequest db rid uid).1 := by
  unfold cancelJoinRequest
  split
  · exact h
  · split
    · split
      · exact h
      · dsimp only
        split
        · split
          · exact h
          · exact inv_mapJoinRequest db rid
              (fun q => { q with status := ReqStatus.cancelled, handled_at := true })
              (fun r => ⟨rfl, rfl⟩) h
        · split
          · exact h
          · exact inv_mapJoinRequest db rid
              (fun q => { q with status := ReqStatus.cancelled, handled_at := true })
              (fun r => ⟨rfl, rfl⟩) h
    · exact h

/-! ### Explicit state equations for the two toggle routes -/

theorem issueToggle_remove_state (db : DB) (iid uid : Nat) (v : IssueUpvote)
    (hv : db.issue_upvotes.find? (fun x => decide (x.issue_id = iid ∧ x.user_id = uid)) = some v) :
    (issueUpvoteToggle db iid uid).1 = { db with
      issues := (db.issues.map (fun i => if i.issue_id = v.issue_id then
          { i with upvote_count := max (i.upvote_count - v.upvote_weight.getD 1) 0 } else i)).map
        (fun i => if i.issue_id = iid then
          { i with upvote_count := max (i.upvote_count - routeWeight db uid) 0 } else i),
      issue_upvotes := db.issue_upvotes.eraseP
        (fun x => decide (x.issue_id = iid ∧ x.user_id = uid)) } := by
  unfold issueUpvoteToggle
  rw [hv]
  dsimp only [trg_issue_upvote_after_delete, mapIssue]
  split <;> rfl

theorem issueToggle_insert_state (db : DB) (iid uid : Nat)
    (hv : db.issue_upvotes.find? (fun x => decide (x.issue_id = iid ∧ x.user_id = uid)) = none)
    (hok : (findIssue db iid).isSome = true ∧ (findUser db uid).isSome = true) :
    (issueUpvoteToggle db iid uid).1 = { db with
      issues := (db.issues.map (fun i => if i.issue_id = iid then
          { i with upvote_count := i.upvote_count + triggerWeight db uid } else i)).map
        (fun i => if i.issue_id = iid then
          { i with upvote_count := i.upvote_count + routeWeight db uid } else i),
      issue_upvotes := db.issue_upvotes ++ [⟨iid, uid, some (triggerWeight db uid)⟩] } := by
  unfold issueUpvoteToggle
  rw [hv]
  dsimp only
  rw [if_pos hok]
  dsimp only [mapIssue]
  split <;> rfl

theorem issueToggle_error_state (db : DB) (iid uid : Nat)
    (hv : db.issue_upvotes.find? (fun x => decide (x.issue_id = iid ∧ x.user_id = uid)) = none)
    (hbad : ¬((findIssue db iid).isSome = true ∧ (findUser db uid).isSome = true)) :
    (issueUpvoteToggle db iid uid).1 = db := by
  unfold issueUpvoteToggle
  rw [hv]
  dsimp only
  rw [if_neg hbad]

theorem groupToggle_remove_state (db : DB) (gid uid : Nat) (v : GroupUpvote)
    (hv : db.group_upvotes.find? (fun x => decide (x.group_id = gid ∧ x.user_id = uid)) = some v) :
    (groupUpvoteToggle db gid uid).1 = { db with
      groups := (db.groups.map (fun g => if g.group_id = v.group_id then
          { g with upvote_count := max (g.upvote_count - v.upvote_weight.getD 1) 0 } else g)).map
        (fun g => if g.group_id = gid then
          { g with upvote_count := g.upvote_count - 1 } else g),
      group_upvotes := db.group_upvotes.eraseP
        (fun x => decide (x.group_id = gid ∧ x.user_id = uid)) } := by
  unfold groupUpvoteToggle
  rw [hv]
  dsimp only [trg_group_upvote_after_delete, mapGroup]
  split <;> rfl

theorem groupToggle_insert_state (db : DB) (gid uid : Nat)
    (hv : db.group_upvotes.find? (fun x => decide (x.group_id = gid ∧ x.user_id = uid)) = none)
    (hok : (findGroup db gid).isSome = true ∧ (findUser db uid).isSome = true) :
    (groupUpvoteToggle db gid uid).1 = { db with
      groups := (db.groups.map (fun g => if g.group_id = gid then
          { g with upvote_count := g.upvote_count + triggerWeight db uid } else g)).map
        (fun g => if g.group_id = gid then
          { g with upvote_count := g.upvote_count + 1 } else g),
      group_upvotes := db.group_upvotes ++ [⟨gid, uid, some (triggerWeight db uid)⟩] } := by
  unfold groupUpvoteToggle
  rw [hv]
  dsimp only
  rw [if_pos hok]
  dsimp only [mapGroup]
  split <;> rfl

theorem groupToggle_error_state (db : DB) (gid uid : Nat)
    (hv : db.group_upvotes.find? (fun x => decide (x.group_id = gid ∧ x.user_id = uid)) = none)
    (hbad : ¬((findGroup db gid).isSome = true ∧ (findUser db uid).isSome = true)) :
    (groupUpvoteToggle db gid uid).1 = db := by
  unfold groupUpvoteToggle
  rw [hv]
  dsimp only
  rw [if_neg hbad]

/-! ### Invariant preservation for the toggles -/

theorem inv_issueUpvoteToggle (db : DB) (iid uid : Nat) (h : Inv db) :
    Inv (issueUpvoteToggle db iid uid).1 := by
  have step : ∀ (w : Int) (jid : Nat) (l : List Issue),
      (∀ i ∈ l, 0 ≤ i.upvote_count ∧ 0 ≤ i.comment_count) →
      ∀ i ∈ l.map (fun i => if i.issue_id = jid then
          { i with upvote_count := max (i.upvote_count - w) 0 } else i),
        0 ≤ i.upvote_count ∧ 0 ≤ i.comment_count := by
    intro w jid l hl
    refine forall_mem_map_self hl ?_
    intro i hi
    split
    · exact ⟨le_max_right _ 0, hi.2⟩
    · exact hi
  have stepAdd : ∀ (w : Int), 0 ≤ w → ∀ (jid : Nat) (l : List Issue),
      (∀ i ∈ l, 0 ≤ i.upvote_count ∧ 0 ≤ i.comment_count) →
      ∀ i ∈ l.map (fun i => if i.issue_id = jid then
          { i with upvote_count := i.upvote_count + w } else i),
        0 ≤ i.upvote_count ∧ 0 ≤ i.comment_count := by
    intro w hw jid l hl
    refine forall_mem_map_self hl ?_
    intro i hi
    split
    · exact ⟨by have h1 := hi.1; dsimp only; omega, hi.2⟩
    · exact hi
  cases hv : db.issue_upvotes.find? (fun x => decide (x.issue_id = iid ∧ x.user_id = uid)) with
  | some v =>
    rw [issueToggle_remove_state db iid uid v hv]
    exact ⟨h.rolesOK, step _ _ _ (step _ _ _ h.issuesOK), h.groupsOK, h.gvWeights, h.gvMass,
      h.groupsBound, h.gvBound, h.jrUnique⟩
  | none =>
    by_cases hok : (findIssue db iid).isSome = true ∧ (findUser db uid).isSome = true
    · rw [issueToggle_insert_state db iid uid hv hok]
      have hw1 : 1 ≤ triggerWeight db uid := one_le_triggerWeight db uid h.rolesOK
      have hw2 : 1 ≤ routeWeight db uid := one_le_routeWeight db uid h.rolesOK
      exact ⟨h.rolesOK,
        stepAdd _ (by omega) _ _ (stepAdd _ (by omega) _ _ h.issuesOK),
        h.groupsOK, h.gvWeights, h.gvMass, h.groupsBound, h.gvBound, h.jrUnique⟩
    · rw [issueToggle_error_state db iid uid hv hok]
      exact h

theorem inv_groupUpvoteToggle (db : DB) (gid uid : Nat) (h : Inv db) :
    Inv (groupUpvoteToggle db gid uid).1 := by
  cases hv : db.group_upvotes.find? (fun x => decide (x.group_id = gid ∧ x.user_id = uid)) with
  | some v =>
    rw [groupToggle_remove_state db gid uid v hv]
    have hvb := List.find?_some hv
    have hvp : v.group_id = gid ∧ v.user_id = uid := of_decide_eq_true hvb
    have hvg : v.group_id = gid := hvp.1
    have hvmem : v ∈ db.group_upvotes := List.mem_of_find?_eq_some hv
    have hwv : 0 ≤ v.upvote_weight.getD 1 := h.gvWeights v hvmem
    have hsub : (db.group_upvotes.eraseP
        (fun x => decide (x.group_id = gid ∧ x.user_id = uid))).Sublist db.group_upvotes :=
      List.eraseP_sublist _
    have hEw : ∀ u ∈ db.group_upvotes.eraseP
        (fun x => decide (x.group_id = gid ∧ x.user_id = uid)), 0 ≤ u.upvote_weight.getD 1 :=
      fun u hu => h.gvWeights u (hsub.subset hu)
    have hEmass : ∀ gid' : Nat, groupVoteMass (db.group_upvotes.eraseP
        (fun x => decide (x.group_id = gid ∧ x.user_id = uid))) gid'
        = groupVoteMass db.group_upvotes gid'
          - (if v.group_id = gid' then upvoteContrib v else 0) :=
      fun gid' => groupVoteMass_eraseP _ _ v hv gid'
    refine ⟨h.rolesOK, h.issuesOK, ?_, hEw, ?_, ?_, fun u hu => h.gvBound u (hsub.subset hu),
      h.jrUnique⟩
    · intro g' hg'
      rcases List.mem_map.mp hg' with ⟨g1x, hg1x, rfl⟩
      rcases List.mem_map.mp hg1x with ⟨g0, hg0, rfl⟩
      have h0 := h.groupsOK g0 hg0
      by_cases hgg : g0.group_id = gid
      · rw [if_pos (show g0.group_id = v.group_id by rw [hvg]; exact hgg)]
        rw [if_pos (by dsimp only; exact hgg)]
        exact h0
      · rw [if_neg (show ¬g0.group_id = v.group_id by rw [hvg]; exact hgg)]
        rw [if_neg hgg]
        exact h0
    · intro g' hg'
      rcases List.mem_map.mp hg' with ⟨g1x, hg1x, rfl⟩
      rcases List.mem_map.mp hg1x with ⟨g0, hg0, rfl⟩
      have hm0 := h.gvMass g0 hg0
      by_cases hgg : g0.group_id = gid
      · rw [if_pos (show g0.group_id = v.group_id by rw [hvg]; exact hgg)]
        rw [if_pos (by dsimp only; exact hgg)]
        dsimp only
        rw [hgg, hEmass gid, if_pos hvg]
        have hnn : 0 ≤ groupVoteMass (db.group_upvotes.eraseP
            (fun x => decide (x.group_id = gid ∧ x.user_id = uid))) gid :=
          groupVoteMass_nonneg _ _ hEw
        rw [hEmass gid, if_pos hvg] at hnn
        have hco : upvoteContrib v = v.upvote_weight.getD 1 + 1 := rfl
        rw [hgg] at hm0
        have hmax : max (g0.upvote_count - v.upvote_weight.getD 1) 0
            = g0.upvote_count - v.upvote_weight.getD 1 := by
          rw [hco] at hnn
          apply max_eq_left
          omega
        rw [hmax, hco]
        omega
      · rw [if_neg (show ¬g0.group_id = v.group_id by rw [hvg]; exact hgg)]
        rw [if_neg hgg]
        rw [hEmass g0.group_id,
          if_neg (show ¬v.group_id = g0.group_id by rw [hvg]; exact fun e => hgg e.symm)]
        omega
    · intro g' hg'
      rcases List.mem_map.mp hg' with ⟨g1x, hg1x, rfl⟩
      rcases List.mem_map.mp hg1x with ⟨g0, hg0, rfl⟩
      have hb0 := h.groupsBound g0 hg0
      by_cases hgg : g0.group_id = gid
      · rw [if_pos (show g0.group_id = v.group_id by rw [hvg]; exact hgg)]
        rw [if_pos (by dsimp only; exact hgg)]
        exact hb0
      · rw [if_neg (show ¬g0.group_id = v.group_id by rw [hvg]; exact hgg)]
        rw [if_neg hgg]
        exact hb0
  | none =>
    by_cases hok : (findGroup db gid).isSome = true ∧ (findUser db uid).isSome = true
    · rw [groupToggle_insert_state db gid uid hv hok]
      have hw : 1 ≤ triggerWeight db uid := one_le_triggerWeight db uid h.rolesOK
      rcases Option.isSome_iff_exists.mp hok.1 with ⟨g0, hg0⟩
      have hg0' : db.groups.find? (fun g => decide (g.group_id = gid)) = some g0 := hg0
      have hg0b := List.find?_some hg0'
      have hg0eq : g0.group_id = gid := of_decide_eq_true hg0b
      have hgidlt : gid < db.next_id := hg0eq ▸ h.groupsBound g0 (List.mem_of_find?_eq_some hg0')
      have hmassapp : ∀ gid' : Nat,
          groupVoteMass (db.group_upvotes ++ [⟨gid, uid, some (triggerWeight db uid)⟩]) gid'
          = groupVoteMass db.group_upvotes gid'
            + (if gid = gid' then triggerWeight db uid + 1 else 0) := by
        intro gid'
        rw [groupVoteMass_append]
        have hone : groupVoteMass [(⟨gid, uid, some (triggerWeight db uid)⟩ : GroupUpvote)] gid'
            = (if gid = gid' then triggerWeight db uid + 1 else 0) := by
          simp [groupVoteMass, upvoteContrib]
        rw [hone]
      refine ⟨h.rolesOK, h.issuesOK, ?_, ?_, ?_, ?_, ?_, h.jrUnique⟩
      · intro g' hg'
        rcases List.mem_map.mp hg' with ⟨g1x, hg1x, rfl⟩
        rcases List.mem_map.mp hg1x with ⟨g0x, hg0x, rfl⟩
        have h0 := h.groupsOK g0x hg0x
        by_cases hgg : g0x.group_id = gid
        · rw [if_pos hgg, if_pos (by dsimp only; exact hgg)]
          exact h0
        · rw [if_neg hgg, if_neg hgg]
          exact h0
      · intro u hu
        rcases List.mem_append.mp hu with hu | hu
        · exact h.gvWeights u hu
        · rw [List.mem_singleton.mp hu]
          show 0 ≤ (some (triggerWeight db uid)).getD 1
          dsimp only [Option.getD]
          omega
      · intro g' hg'
        rcases List.mem_map.mp hg' with ⟨g1x, hg1x, rfl⟩
        rcases List.mem_map.mp hg1x with ⟨g0x, hg0x, rfl⟩
        have hm0 := h.gvMass g0x hg0x
        by_cases hgg : g0x.group_id = gid
        · rw [if_pos hgg, if_pos (by dsimp only; exact hgg)]
          dsimp only
          rw [hgg, hmassapp gid, if_pos rfl]
          rw [hgg] at hm0
          omega
        · rw [if_neg hgg, if_neg hgg]
          rw [hmassapp g0x.group_id, if_neg (fun e => hgg e.symm)]
          omega
      · intro g' hg'
        rcases List.mem_map.mp hg' with ⟨g1x, hg1x, rfl⟩
        rcases List.mem_map.mp hg1x with ⟨g0x, hg0x, rfl⟩
        have hb0 := h.groupsBound g0x hg0x
        by_cases hgg : g0x.group_id = gid
        · rw [if_pos hgg, if_pos (by dsimp only; exact hgg)]
          exact hb0
        · rw [if_neg hgg, if_neg hgg]
          exact hb0
      · intro u hu
        rcases List.mem_append.mp hu with hu | hu
        · exact h.gvBound u hu
        · rw [List.mem_singleton.mp hu]
          exact hgidlt
    · rw [groupToggle_error_state db gid uid hv hok]
      exact h

/-! ### The reachability invariant -/

theorem inv_init : Inv DB.init := by
  constructor <;> simp [DB.init]

theorem step_preserves_inv {db db' : DB} (h : Inv db) (s : Step db db') : Inv db' := by
  cases s with
  | role_create t w => exact inv_createRole db t w h
  | role_update rid w => exact inv_updateRoleWeight db rid w h
  | user_create uid rid => exact inv_createUser db uid rid h
  | issue_create uid gid => exact inv_createIssue db uid gid h
  | group_create uid => exact inv_createGroup db uid h
  | issue_toggle iid uid => exact inv_issueUpvoteToggle db iid uid h
  | group_toggle gid uid => exact inv_groupUpvoteToggle db gid uid h
  | issue_comment iid uid c => exact inv_addIssueComment db iid uid c h
  | group_comment gid uid c => exact inv_addGroupComment db gid uid c h
  | jr_submit iid gid rbg uid => exact inv_submitJoinRequest db iid gid rbg uid h
  | jr_decide rid uid dec => exact inv_decideJoinRequest db rid uid dec h
  | jr_cancel rid uid => exact inv_cancelJoinRequest db rid uid h
  | rcr_plural uid rid => exact inv_submitRoleChangeRequestPlural db uid rid h
  | rcr_singular uid rid => exact inv_submitRoleChangeRequestSingular db uid rid h
  | rcr_decide rid dec => exact inv_decideRoleChangeRequest db rid dec h

theorem reachable_inv {db : DB} (h : Reachable db) : Inv db := by
  induction h with
  | refl => exact inv_init
  | tail _ s ih => exact step_preserves_inv ih s

theorem dbS7_reachable : Reachable dbS7 :=
  Relation.ReflTransGen.tail
    (Relation.ReflTransGen.tail
      (Relation.ReflTransGen.tail
        (Relation.ReflTransGen.tail
          (Relation.ReflTransGen.tail
            (Relation.ReflTransGen.tail
              (Relation.ReflTransGen.tail Relation.ReflTransGen.refl
                (Step.role_create DB.init "citizen" 1))
              (Step.user_create dbS1 1 0))
            (Step.user_create dbS2 2 0))
          (Step.issue_create dbS3 1 none))
        (Step.group_create dbS4 2))
      (Step.group_toggle dbS5 2 1))
    (Step.jr_submit dbS6 1 2 false 1)

/-- C3 (amended): in every state reachable through the modelled
operations, every denormalized counter — `upvote_count` and
`comment_count` on issues and groups, `issue_count` on groups — is
non-negative. (The claim's "every decrement is floored at 0" is
refuted separately: the group remove-branch decrement at
index.js:1657 is unfloored, but the invariant still holds, because
each stored group vote put its weight + 1 onto the counter when it
was inserted.) -/
theorem c3_counters_nonneg_in_reachable_states (db : DB) (h : Reachable db) :
    (∀ i ∈ db.issues, 0 ≤ i.upvote_count ∧ 0 ≤ i.comment_count) ∧
    (∀ g ∈ db.groups, 0 ≤ g.upvote_count ∧ 0 ≤ g.comment_count ∧ 0 ≤ g.issue_count) := by
  have hi := reachable_inv h
  refine ⟨hi.issuesOK, fun g hg => ⟨?_, (hi.groupsOK g hg).1, (hi.groupsOK g hg).2⟩⟩
  have h1 := hi.gvMass g hg
  have h2 := groupVoteMass_nonneg db.group_upvotes g.group_id hi.gvWeights
  omega

/-- C3 witness: the non-negativity theorem applied to the concrete
reachable state `dbS7` (which holds an issue, a group with an upvote
of weight 1, and a pending join request). -/
theorem c3_counters_nonneg_witness :
    (∀ i ∈ dbS7.issues, 0 ≤ i.upvote_count ∧ 0 ≤ i.comment_count) ∧
    (∀ g ∈ dbS7.groups, 0 ≤ g.upvote_count ∧ 0 ≤ g.comment_count ∧ 0 ≤ g.issue_count) :=
  c3_counters_nonneg_in_reachable_states dbS7 dbS7_reachable

/-- C10: in every reachable state there is at most one
`group_join_request` row per (issue_id, group_id) pair, regardless
of status — the rows are pairwise distinct on the pair, mirroring
the UNIQUE (issue_id, group_id) constraint of schema.sql:283, which
the submit route's insert can never violate. -/
theorem c10_at_most_one_join_request_row_per_pair (db : DB) (h : Reachable db) :
    db.join_requests.Pairwise
      (fun a b => ¬(a.issue_id = b.issue_id ∧ a.group_id = b.group_id)) :=
  (reachable_inv h).jrUnique

/-- C10 witness: the pair-uniqueness theorem applied to the concrete
reachable state `dbS7`, which holds an actual join-request row. -/
theorem c10_at_most_one_join_request_row_witness :
    dbS7.join_requests.Pairwise
      (fun a b => ¬(a.issue_id = b.issue_id ∧ a.group_id = b.group_id)) :=
  c10_at_most_one_join_request_row_per_pair dbS7 dbS7_reachable

/-! ### State-projection lemmas for the join-request routes -/

theorem trg_update_next_id (db : DB) (oldG newG : Option Nat) :
    (trg_update_issue_group_count db oldG newG).next_id = db.next_id := by
  unfold trg_update_issue_group_count
  dsimp only
  cases oldG <;> cases newG <;> rfl

theorem trg_update_join_requests (db : DB) (oldG newG : Option Nat) :
    (trg_update_issue_group_count db oldG newG).join_requests = db.join_requests := by
  unfold trg_update_issue_group_count
  dsimp only
  cases oldG <;> cases newG <;> rfl

theorem findIssue_trg_update (db : DB) (oldG newG : Option Nat) (iid : Nat) :
    findIssue (trg_update_issue_group_count db oldG newG) iid = findIssue db iid := by
  unfold trg_update_issue_group_count
  dsimp only
  cases oldG <;> cases newG <;> rfl

theorem setIssueGroup_next_id (db : DB) (iid : Nat) (newG : Option Nat) :
    (setIssueGroup db iid newG).next_id = db.next_id := by
  unfold setIssueGroup
  cases hfi : findIssue db iid with
  | none => rfl
  | some i =>
    dsimp only
    split
    · rfl
    · exact trg_update_next_id _ _ _

theorem setIssueGroup_join_requests (db : DB) (iid : Nat) (newG : Option Nat) :
    (setIssueGroup db iid newG).join_requests = db.join_requests := by
  unfold setIssueGroup
  cases hfi : findIssue db iid with
  | none => rfl
  | some i =>
    dsimp only
    split
    · rfl
    · exact trg_update_join_requests _ _ _

theorem findIssue_mapIssue (db : DB) (tid : Nat) (f : Issue → Issue)
    (hf : ∀ x, (f x).issue_id = x.issue_id) (jid : Nat) :
    findIssue (mapIssue db tid f) jid
      = (findIssue db jid).map (fun x => if x.issue_id = tid then f x else x) := by
  unfold findIssue mapIssue
  dsimp only
  refine find?_map_comm _ _ _ ?_
  intro x
  dsimp only
  by_cases hx : x.issue_id = tid
  · rw [if_pos hx, hf x]
  · rw [if_neg hx]

theorem find?_map_count_update (l : List Issue) (jid tid : Nat) (f : Issue → Issue)
    (hf : ∀ x, (f x).issue_id = x.issue_id) :
    (l.map (fun x => if x.issue_id = tid then f x else x)).find?
        (fun x => decide (x.issue_id = jid))
      = (l.find? (fun x => decide (x.issue_id = jid))).map
        (fun x => if x.issue_id = tid then f x else x) := by
  refine find?_map_comm _ _ _ ?_
  intro x
  dsimp only
  by_cases hx : x.issue_id = tid
  · rw [if_pos hx, hf x]
  · rw [if_neg hx]

theorem issueGroup_setIssueGroup (db : DB) (iid : Nat) (newG : Option Nat) (i : Issue)
    (hi : findIssue db iid = some i) :
    issueGroup (setIssueGroup db iid newG) iid = some newG := by
  have hieq : i.issue_id = iid := by
    have hb := List.find?_some
      (show db.issues.find? (fun x => decide (x.issue_id = iid)) = some i from hi)
    exact of_decide_eq_true hb
  have hfind : findIssue (mapIssue db iid (fun j => { j with group_id := newG })) iid
      = some { i with group_id := newG } := by
    rw [findIssue_mapIssue db iid (fun j => { j with group_id := newG }) (fun j => rfl) iid, hi]
    rw [Option.map_some']
    rw [if_pos hieq]
  unfold setIssueGroup
  rw [hi]
  dsimp only
  split
  · unfold issueGroup
    rw [hfind]
    rfl
  · unfold issueGroup
    rw [findIssue_trg_update, hfind]
    rfl

/-! ### C4: cancellation authorization -/

/-- C4 (amended): for a pending request whose issue and group both
resolve, `DELETE /group-join-requests/:id` succeeds exactly for the
owner of the INITIATING side — the group owner when
`requested_by_group`, else the issue owner — setting the status to
cancelled and stamping `handled_at`; any other actor, including the
non-initiating owner, receives 403 Forbidden with no state change
(index.js:2209-2221). The schema's stored procedure
`cancel_group_join_request` would allow either owner, but no route
invokes it. -/
theorem c4_cancel_succeeds_only_for_initiating_owner (db : DB) (rid uid : Nat)
    (r : GroupJoinRequest) (i : Issue) (g : Group)
    (hr : findJoinRequest db rid = some r)
    (hi : findIssue db r.issue_id = some i)
    (hg : findGroup db r.group_id = some g)
    (hp : r.status = ReqStatus.pending) :
    (uid = (if r.requested_by_group then g.owner_id else i.user_id) →
      (cancelJoinRequest db rid uid).2 = Except.ok () ∧
      (cancelJoinRequest db rid uid).1 = mapJoinRequest db rid
        (fun q => { q with status := ReqStatus.cancelled, handled_at := true })) ∧
    (uid ≠ (if r.requested_by_group then g.owner_id else i.user_id) →
      (cancelJoinRequest db rid uid).2 = Except.error ApiError.forbidden ∧
      (cancelJoinRequest db rid uid).1 = db) := by
  have hiff : (if r.requested_by_group = true then g.owner_id = uid else i.user_id = uid)
      ↔ uid = (if r.requested_by_group = true then g.owner_id else i.user_id) := by
    cases hb : r.requested_by_group <;> simp [eq_comm]
  unfold cancelJoinRequest
  rw [hr]
  try dsimp only
  rw [hi, hg]
  try dsimp only
  rw [if_neg (show ¬r.status ≠ ReqStatus.pending from fun hc => hc hp)]
  try dsimp only
  constructor
  · intro hu
    rw [if_neg (not_not_intro (hiff.mpr hu))]
    exact ⟨rfl, rfl⟩
  · intro hu
    rw [if_pos (show ¬(if r.requested_by_group = true then g.owner_id = uid
        else i.user_id = uid) from fun hc => hu (hiff.mp hc))]
    exact ⟨rfl, rfl⟩

/-- C4 witness: on the concrete pending request of `dbC4`
(initiated by the issue side), the issue owner (user 1) cancels
successfully while the group owner (user 2) is refused. -/
theorem c4_cancel_witness :
    (cancelJoinRequest dbC4 30 1).2 = Except.ok () ∧
    (cancelJoinRequest dbC4 30 2).2 = Except.error ApiError.forbidden := by
  have h1 := c4_cancel_succeeds_only_for_initiating_owner dbC4 30 1
    ⟨30, 10, 20, false, ReqStatus.pending, false⟩ ⟨10, 1, none, 0, 0⟩ ⟨20, 2, 0, 0, 0⟩
    rfl rfl rfl rfl
  have h2 := c4_cancel_succeeds_only_for_initiating_owner dbC4 30 2
    ⟨30, 10, 20, false, ReqStatus.pending, false⟩ ⟨10, 1, none, 0, 0⟩ ⟨20, 2, 0, 0, 0⟩
    rfl rfl rfl rfl
  exact ⟨(h1.1 (by decide)).1, (h2.2 (by decide)).1⟩

/-! ### C5: auto-approval -/

/-- C5 (amended): when the actor owns both the issue and the group,
both exist, the issue is not already in the group, and — beyond the
spec's stated preconditions — NO request row for the pair persists
(the UNIQUE constraint would otherwise abort the insert), the submit
route creates the request already approved with `handled_at` set and
the issue's `group_id` updated immediately (index.js:1990-2013). -/
theorem c5_auto_approval_with_fresh_pair (db : DB) (iid gid uid : Nat) (rbg : Bool)
    (i : Issue) (g : Group)
    (hi : findIssue db iid = some i) (hg : findGroup db gid = some g)
    (hio : i.user_id = uid) (hgo : g.owner_id = uid)
    (hnl : ¬i.group_id = some gid)
    (hfresh : ∀ r ∈ db.join_requests, ¬(r.issue_id = iid ∧ r.group_id = gid)) :
    (submitJoinRequest db iid gid rbg uid).2 =
      Except.ok ⟨⟨db.next_id, iid, gid, rbg, ReqStatus.approved, true⟩, true⟩ ∧
    issueGroup (submitJoinRequest db iid gid rbg uid).1 iid = some (some gid) := by
  have hany1 : (db.join_requests.any (fun r =>
      decide (r.issue_id = iid ∧ r.group_id = gid ∧ r.status = ReqStatus.pending))) = false := by
    simp only [List.any_eq_false, decide_eq_true_eq]
    exact fun r hrm hc => hfresh r hrm ⟨hc.1, hc.2.1⟩
  have hany2 : (db.join_requests.any (fun r =>
      decide (r.issue_id = iid ∧ r.group_id = gid))) = false := by
    simp only [List.any_eq_false, decide_eq_true_eq]
    exact hfresh
  unfold submitJoinRequest
  rw [hi]
  try dsimp only
  rw [hg]
  try dsimp only
  rw [if_neg (show ¬(rbg = true ∧ g.owner_id ≠ uid) from fun hc => hc.2 hgo)]
  rw [if_neg (show ¬(¬rbg = true ∧ i.user_id ≠ uid) from fun hc => hc.2 hio)]
  rw [if_neg hnl]
  rw [hany1, if_neg Bool.false_ne_true]
  rw [if_pos (show g.owner_id = i.user_id ∧ g.owner_id = uid from ⟨by rw [hgo, hio], hgo⟩)]
  try dsimp only
  rw [setIssueGroup_join_requests]
  rw [hany2, if_neg Bool.false_ne_true]
  try dsimp only
  constructor
  · rw [setIssueGroup_next_id]
  · show issueGroup (setIssueGroup db iid (some gid)) iid = some (some gid)
    exact issueGroup_setIssueGroup db iid (some gid) i hi

/-- C5 witness: in `dbW5` (user 1 owns both sides, fresh pair), the
submission auto-approves and links the issue at once. -/
theorem c5_auto_approval_witness :
    (submitJoinRequest dbW5 10 20 false 1).2 =
      Except.ok ⟨⟨50, 10, 20, false, ReqStatus.approved, true⟩, true⟩ ∧
    issueGroup (submitJoinRequest dbW5 10 20 false 1).1 10 = some (some 20) :=
  c5_auto_approval_with_fresh_pair dbW5 10 20 1 false ⟨10, 1, none, 0, 0⟩ ⟨20, 1, 0, 0, 0⟩
    rfl rfl rfl rfl (by decide) (fun r hr => absurd hr (List.not_mem_nil r))

/-! ### C6: mutual exclusivity of submissions -/

/-- C6 (amended): with the issue and group present, the actor
authorized for the initiating side, and the issue not already in the
group, submitting while a PENDING request for the pair exists fails
with 400 (Conflict); and once any request row for the pair exists
with no pending one — e.g. after cancellation — a new submission
STILL fails, now with a 500 from the UNIQUE (issue_id, group_id)
violation (schema.sql:283), instead of succeeding as the spec
expects. -/
theorem c6_submission_blocked_while_any_row_exists (db : DB) (iid gid : Nat) (rbg : Bool)
    (uid : Nat) (i : Issue) (g : Group)
    (hi : findIssue db iid = some i) (hg : findGroup db gid = some g)
    (hgo : rbg = true → g.owner_id = uid) (hio : rbg = false → i.user_id = uid)
    (hnl : ¬i.group_id = some gid) :
    ((∃ r ∈ db.join_requests, r.issue_id = iid ∧ r.group_id = gid ∧
        r.status = ReqStatus.pending) →
      (submitJoinRequest db iid gid rbg uid).2 = Except.error ApiError.badRequest) ∧
    ((∃ r ∈ db.join_requests, r.issue_id = iid ∧ r.group_id = gid) ∧
        (∀ r ∈ db.join_requests, ¬(r.issue_id = iid ∧ r.group_id = gid ∧
          r.status = ReqStatus.pending)) →
      (submitJoinRequest db iid gid rbg uid).2 = Except.error ApiError.internal) := by
  have hauth1 : ¬(rbg = true ∧ g.owner_id ≠ uid) := fun hc => hc.2 (hgo hc.1)
  have hauth2 : ¬(¬rbg = true ∧ i.user_id ≠ uid) := by
    intro hc
    cases hb : rbg with
    | false => exact hc.2 (hio hb)
    | true => exact hc.1 hb
  unfold submitJoinRequest
  rw [hi]
  try dsimp only
  rw [hg]
  try dsimp only
  rw [if_neg hauth1, if_neg hauth2, if_neg hnl]
  constructor
  · rintro ⟨r, hrm, hr1, hr2, hr3⟩
    rw [if_pos (List.any_eq_true.mpr ⟨r, hrm, decide_eq_true ⟨hr1, hr2, hr3⟩⟩)]
  · rintro ⟨⟨r, hrm, hr1, hr2⟩, hnp⟩
    have hany1 : (db.join_requests.any (fun q =>
        decide (q.issue_id = iid ∧ q.group_id = gid ∧ q.status = ReqStatus.pending))) = false := by
      simp only [List.any_eq_false, decide_eq_true_eq]
      exact hnp
    rw [hany1, if_neg Bool.false_ne_true]
    by_cases hauto : g.owner_id = i.user_id ∧ g.owner_id = uid
    · rw [if_pos hauto]
      try dsimp only
      rw [setIssueGroup_join_requests]
      rw [if_pos (List.any_eq_true.mpr ⟨r, hrm, decide_eq_true ⟨hr1, hr2⟩⟩)]
    · rw [if_neg hauto]
      try dsimp only
      rw [if_pos (List.any_eq_true.mpr ⟨r, hrm, decide_eq_true ⟨hr1, hr2⟩⟩)]

/-- C6 witness: in `dbW6` a pending request blocks resubmission with
400; in `dbC6`, after cancellation, resubmission still fails (500)
and nothing is created. -/
theorem c6_submission_blocked_witness :
    (submitJoinRequest dbW6 10 20 false 1).2 = Except.error ApiError.badRequest ∧
    (submitJoinRequest dbC6 10 20 false 1).2 = Except.error ApiError.internal := by
  have h1 := c6_submission_blocked_while_any_row_exists dbW6 10 20 false 1
    ⟨10, 1, none, 0, 0⟩ ⟨20, 2, 0, 0, 0⟩ rfl rfl
    (fun hb => absurd hb (by decide)) (fun _ => rfl) (by decide)
  have h2 := c6_submission_blocked_while_any_row_exists dbC6 10 20 false 1
    ⟨10, 1, none, 0, 0⟩ ⟨20, 2, 0, 0, 0⟩ rfl rfl
    (fun hb => absurd hb (by decide)) (fun _ => rfl) (by decide)
  refine ⟨h1.1 ?_, h2.2 ⟨?_, ?_⟩⟩
  · exact ⟨⟨30, 10, 20, false, ReqStatus.pending, false⟩, by decide, rfl, rfl, rfl⟩
  · exact ⟨⟨30, 10, 20, false, ReqStatus.cancelled, true⟩, by decide, rfl, rfl⟩
  · decide

/-! ### C7: double toggle from a vote-free state -/

/-- C7 (amended): when the voter has NO existing vote on the issue
(the situation the spec's test describes), toggling twice restores
the upvote count exactly and leaves the vote table as it was —
the insert adds trigger-weight + route-weight and the removal takes
the same two amounts back off, the clamps never binding while the
count and the resolved route weight are non-negative. With an
existing vote the claim fails (see the counterexample): the pair of
toggles re-creates a Vote row at the current weight. -/
theorem c7_double_toggle_from_no_vote (db : DB) (iid uid : Nat) (i : Issue)
    (hi : findIssue db iid = some i)
    (hu : (findUser db uid).isSome = true)
    (hc : 0 ≤ i.upvote_count)
    (hw : 0 ≤ routeWeight db uid)
    (hv : db.issue_upvotes.find? (fun x => decide (x.issue_id = iid ∧ x.user_id = uid)) = none) :
    (findIssue (issueUpvoteToggle (issueUpvoteToggle db iid uid).1 iid uid).1 iid).map
        (fun j => j.upvote_count) = some i.upvote_count ∧
    (issueUpvoteToggle (issueUpvoteToggle db iid uid).1 iid uid).1.issue_upvotes
      = db.issue_upvotes := by
  have hieq : i.issue_id = iid := by
    have hb := List.find?_some
      (show db.issues.find? (fun x => decide (x.issue_id = iid)) = some i from hi)
    exact of_decide_eq_true hb
  have hok : (findIssue db iid).isSome = true ∧ (findUser db uid).isSome = true :=
    ⟨by rw [hi]; rfl, hu⟩
  have st1 := issueToggle_insert_state db iid uid hv hok
  have hp1 : (fun x : IssueUpvote => decide (x.issue_id = iid ∧ x.user_id = uid))
      (⟨iid, uid, some (triggerWeight db uid)⟩ : IssueUpvote) = true := by
    exact decide_eq_true ⟨rfl, rfl⟩
  have hfind2 : ((issueUpvoteToggle db iid uid).1).issue_upvotes.find?
      (fun x => decide (x.issue_id = iid ∧ x.user_id = uid))
      = some ⟨iid, uid, some (triggerWeight db uid)⟩ := by
    rw [st1]
    dsimp only
    rw [find?_append_of_none _ _ _ hv]
    exact List.find?_cons_of_pos _ hp1
  have st2 := issueToggle_remove_state (issueUpvoteToggle db iid uid).1 iid uid _ hfind2
  have hi' : db.issues.find? (fun x => decide (x.issue_id = iid)) = some i := hi
  constructor
  · rw [st2, st1]
    unfold findIssue
    dsimp only [Option.getD]
    rw [show routeWeight ({ db with
        issues := (db.issues.map (fun x => if x.issue_id = iid then
            { x with upvote_count := x.upvote_count + triggerWeight db uid } else x)).map
          (fun x => if x.issue_id = iid then
            { x with upvote_count := x.upvote_count + routeWeight db uid } else x),
        issue_upvotes := db.issue_upvotes ++ [⟨iid, uid, some (triggerWeight db uid)⟩] } : DB) uid
      = routeWeight db uid from rfl]
    rw [find?_map_count_update _ _ _
      (fun x => { x with upvote_count := max (x.upvote_count - routeWeight db uid) 0 })
      (fun x => rfl)]
    rw [find?_map_count_update _ _ _
      (fun x => { x with upvote_count := max (x.upvote_count - triggerWeight db uid) 0 })
      (fun x => rfl)]
    rw [find?_map_count_update _ _ _
      (fun x => { x with upvote_count := x.upvote_count + routeWeight db uid })
      (fun x => rfl)]
    rw [find?_map_count_update _ _ _
      (fun x => { x with upvote_count := x.upvote_count + triggerWeight db uid })
      (fun x => rfl)]
    rw [hi']
    simp only [Option.map, hieq, eq_self_iff_true, if_true]
    have e1 : i.upvote_count + triggerWeight db uid + routeWeight db uid - triggerWeight db uid
        = i.upvote_count + routeWeight db uid := by omega
    rw [e1]
    have e2 : max (i.upvote_count + routeWeight db uid) 0
        = i.upvote_count + routeWeight db uid := max_eq_left (by omega)
    rw [e2]
    have e3 : i.upvote_count + routeWeight db uid - routeWeight db uid = i.upvote_count := by
      omega
    rw [e3, max_eq_left hc]
  · rw [st2, st1]
    dsimp only
    rw [eraseP_append_of_none _ _ _ hv]
    have herase : List.eraseP (fun x : IssueUpvote => decide (x.issue_id = iid ∧ x.user_id = uid))
        [(⟨iid, uid, some (triggerWeight db uid)⟩ : IssueUpvote)] = [] :=
      List.eraseP_cons_of_pos hp1
    rw [herase]
    exact List.append_nil _

theorem c7_double_toggle_from_no_vote_witness :
    (findIssue (issueUpvoteToggle (issueUpvoteToggle dbW7 1 7).1 1 7).1 1).map
        (fun j => j.upvote_count) = some ((⟨1, 7, none, 5, 0⟩ : Issue).upvote_count) ∧
    (issueUpvoteToggle (issueUpvoteToggle dbW7 1 7).1 1 7).1.issue_upvotes
      = dbW7.issue_upvotes :=
  c7_double_toggle_from_no_vote dbW7 1 7 ⟨1, 7, none, 5, 0⟩ (by decide) (by decide)
    (by decide) (by decide) (by decide)

/-! ### C8: the contract the plural role-change route actually has -/

/-- C8 (amended): the full contract of `POST /role-change-requests`
(index.js:2367), the route Express serves for that path. (1) When the
user already has SOME pending role-change request the call rejects
with 400 and changes nothing. (2) Otherwise, when the requested role
does not exist it rejects with 404 and changes nothing. (3) Otherwise,
for an existing user it inserts and returns a fresh pending request —
it never compares the requested role with the user's current role, so
requesting the role one already holds succeeds (no Conflict as the
spec claims; see the counterexample). -/
theorem c8_plural_route_contract (db : DB) (uid rid : Nat) :
    (db.role_requests.any
        (fun r => decide (r.user_id = uid ∧ r.status = ReqStatus.pending)) = true →
      submitRoleChangeRequestPlural db uid rid = (db, Except.error ApiError.badRequest)) ∧
    (db.role_requests.any
        (fun r => decide (r.user_id = uid ∧ r.status = ReqStatus.pending)) = false →
      findRole db rid = none →
      submitRoleChangeRequestPlural db uid rid = (db, Except.error ApiError.notFound)) ∧
    (db.role_requests.any
        (fun r => decide (r.user_id = uid ∧ r.status = ReqStatus.pending)) = false →
      (findRole db rid).isSome = true →
      (findUser db uid).isSome = true →
      (submitRoleChangeRequestPlural db uid rid).2 =
        Except.ok ⟨db.next_id, uid, rid, ReqStatus.pending, false⟩ ∧
      (submitRoleChangeRequestPlural db uid rid).1.role_requests =
        db.role_requests ++ [⟨db.next_id, uid, rid, ReqStatus.pending, false⟩]) := by
  refine ⟨?_, ?_, ?_⟩
  · intro hp
    unfold submitRoleChangeRequestPlural
    rw [hp, if_pos rfl]
  · intro hnp hrn
    unfold submitRoleChangeRequestPlural
    rw [hnp, if_neg Bool.false_ne_true, hrn]
  · intro hnp hr hu
    unfold submitRoleChangeRequestPlural
    rw [hnp, if_neg Bool.false_ne_true]
    cases hrr : findRole db rid with
    | none =>
      rw [hrr] at hr
      exact absurd hr (by decide)
    | some r =>
      try dsimp only
      rw [if_pos hu]
      exact ⟨rfl, rfl⟩

theorem c8_plural_route_contract_witness :
    submitRoleChangeRequestPlural dbW8b 7 3 = (dbW8b, Except.error ApiError.badRequest) ∧
    submitRoleChangeRequestPlural dbW8 7 99 = (dbW8, Except.error ApiError.notFound) ∧
    ((submitRoleChangeRequestPlural dbW8 7 3).2 =
        Except.ok ⟨dbW8.next_id, 7, 3, ReqStatus.pending, false⟩ ∧
      (submitRoleChangeRequestPlural dbW8 7 3).1.role_requests =
        dbW8.role_requests ++ [⟨dbW8.next_id, 7, 3, ReqStatus.pending, false⟩]) :=
  ⟨(c8_plural_route_contract dbW8b 7 3).1 (by decide),
   (c8_plural_route_contract dbW8 7 99).2.1 (by decide) (by decide),
   (c8_plural_route_contract dbW8 7 3).2.2 (by decide) (by decide) (by decide)⟩

end Idraak
